import Mathlib

/-!
# keymouseplay: the corner-tap gesture recognizer and its surrounding state

A shallow embedding of `src/main.js` and of
`src/module/{state,lessons,parentMode,tracing,visuals,events}.js`.

Conventions of the embedding.

* The mutable variables of the modules (`AppState`, the `let` variables of
  `parentMode.js`, `tracing.js` and `events.js`) are the fields of one record `State`,
  and every function of the source is a function `State → State` (explicit state
  passing): the result is the state in which the call ends, whether it returns or raises
  an exception.
* Module linkage is part of the embedding. A name is in scope in a file only when the
  file declares or imports it, and a binding that a file imports cannot be assigned
  there:
  - `events.js` imports `currentSequenceIndex` and `lastTapTime` from `parentMode.js`
    (line 6); each of its assignments to them (lines 152, 156, 159, 162, 164, 166) raises
    `TypeError` and assigns nothing;
  - `events.js` calls `deactivateParentMode`, `startNewTracingTarget` and `clearCanvas`
    (lines 57 to 105) and imports none of them: the first such call of a listener raises
    `ReferenceError`;
  - `getRandomElement` is declared in `visuals.js` and not exported; the calls of it in
    `tracing.js` (lines 166 and 195) and in `parentMode.js` (line 214) raise
    `ReferenceError`.
  The source has no `try`: an exception ends the handler that runs, the statements
  after the raising one are not executed, the assignments made before it stay, and the
  exception is recorded in the field `uncaught`.
  The import specifiers of `main.js` (`./modules/...`) are read as the files of
  `src/module`.
* `main.js` passes to `registerEventListeners` an object without the panel elements
  (lines 58 to 65), so `elements.colorLessonPanel`, `elements.shapeLessonPanel`,
  `elements.letterNumberLessonPanel` and `elements.parentControlPanel` are `undefined`
  in `events.js`. `AppState.init` receives the panels, so `parentMode.js` has them.
* What a call reads from the browser is an input of the call: the viewport size
  (`window.innerWidth`, `window.innerHeight`), the clock (`Date.now()`), the draws of
  `Math.random()`, and the fields of the DOM event.
* Numbers are exact: coordinates and sizes are rationals, timestamps are integers.
* The DOM elements looked up in `main.js` exist, and `parentMode.js` holds them once
  `lockScreen` has run, so every `if (element)` guard of `parentMode.js` and `tracing.js`
  is taken (the handlers are registered on `lockOverlay` itself).
* `generateVisualFeedback` is an `async` function that awaits `Tone.start()` on its
  first call; the embedding runs its body at the call.
* Of the presentation, the overlay background, the visible parent panel, the instruction
  interval, the canvas command log, the emitted feedback and the celebration messages
  are kept; CSS class toggles on the title, message and back-button elements are not.
* `progressWrites` is a history variable: every assignment to `currentSequenceIndex`
  that is carried out is recorded in it, newest first.  No operation reads it.
-/

namespace KeyMousePlay

/-! ## lessons.js -/

/-- The `type` of a lesson is the string 'emoji' or 'tracing'. -/
structure LessonDefinition where
  type : String
  emojis : Option (List String)
  colors : Option (List String)
  tracingItems : Option (List String)
  allowSwipeTrail : Bool
  deriving DecidableEq, Repr

def colors : List String :=
  ["#FF6B6B", "#FFD166", "#06D6A0", "#118AB2", "#073B4C",
   "#FF9F1C", "#2EC4B6", "#E71D36", "#F7B801", "#A9F0D1",
   "#C70039", "#FFC300", "#DAF7A6", "#FF5733", "#C70039",
   "#6A0572", "#AB83A1", "#8E292E", "#D14081", "#F08A5D"]

def lessonColorsPrimary : List String := ["#FF0000", "#0000FF", "#00FF00"]

def lessonColorsAll : List String :=
  ["#FF0000", "#00FF00", "#0000FF", "#FFFF00", "#FF00FF", "#00FFFF",
   "#FF6B6B", "#FFD166", "#06D6A0", "#118AB2"]

def lessonShapesBasic : List String := ["●", "■", "▲"]

def lessonShapesAdvanced : List String := ["★", "◆", "❤", "⭐"]

def lessonLetters : List String :=
  ["A", "B", "C", "D", "E", "F", "G", "H", "I", "J", "K", "L", "M",
   "N", "O", "P", "Q", "R", "S", "T", "U", "V", "W", "X", "Y", "Z"]

def lessonNumbers : List String := ["0", "1", "2", "3", "4", "5", "6", "7", "8", "9"]

def characters : List String :=
  lessonLetters ++ lessonNumbers ++
    ["⭐", "🌈", "🎉", "🎈", "✨", "🚀", "💖", "💡", "🎵", "🌸", "🌳", "☀️", "🌙", "☁️"]

/-- The object `LessonDefinitions`, as a lookup by lesson identifier; `none` is the
`undefined` of a missing key. -/
def LessonDefinitions (id : String) : Option LessonDefinition :=
  if id = "freeplay" then
    some { type := "emoji", emojis := some characters, colors := some colors,
           tracingItems := none, allowSwipeTrail := true }
  else if id = "color-primary" then
    some { type := "emoji", emojis := some lessonShapesBasic,
           colors := some lessonColorsPrimary, tracingItems := none, allowSwipeTrail := true }
  else if id = "color-all" then
    some { type := "emoji", emojis := some lessonShapesBasic,
           colors := some lessonColorsAll, tracingItems := none, allowSwipeTrail := true }
  else if id = "shape-basic" then
    some { type := "tracing", emojis := none, colors := none,
           tracingItems := some lessonShapesBasic, allowSwipeTrail := true }
  else if id = "shape-advanced" then
    some { type := "tracing", emojis := none, colors := none,
           tracingItems := some lessonShapesAdvanced, allowSwipeTrail := true }
  else if id = "letter-az" then
    some { type := "tracing", emojis := none, colors := none,
           tracingItems := some lessonLetters, allowSwipeTrail := true }
  else if id = "number-09" then
    some { type := "tracing", emojis := none, colors := none,
           tracingItems := some lessonNumbers, allowSwipeTrail := true }
  else none

/-- The method `String.prototype.startsWith` on the characters of the two strings. -/
def startsWith (s p : String) : Bool := p.data.isPrefixOf s.data

/-! ## The state -/

/-- The four values `getCorner` returns besides `null`:
'top-left', 'top-right', 'bottom-right', 'bottom-left'. -/
inductive Corner where
  | topLeft
  | topRight
  | bottomRight
  | bottomLeft
  deriving DecidableEq, Repr

/-- The parent panels that `showLessonPanel` can show. -/
inductive Panel where
  | parentControlPanel
  | colorLessonPanel
  | shapeLessonPanel
  | letterNumberLessonPanel
  deriving DecidableEq, Repr

/-- The value of `lockOverlay.style.background`: what the stylesheet gives before any
assignment, the fixed gray gradient of parent mode
(`radial-gradient(circle at center, #333333, #111111)`), or a gradient of two colours
drawn at random from `colors`. -/
inductive Background where
  | stylesheet
  | parentTheme
  | randomGradient
  deriving DecidableEq, Repr

/-- The object stored in `currentTargetToTrace`; `content` is `none` when the indexed
read of the glyph sequence gave `undefined`. -/
structure TracingTarget where
  type : String
  content : Option String
  deriving DecidableEq, Repr

/-- What has been issued to the 2D context, at the grain of the source's functions.
`strokeOutline` is the whole of `drawOutline` after its `clearCanvas`, named by the
target and the canvas size the path is built from. `beginStroke` is `beginPath`,
`moveTo` and the line width of `startDrawing` (lines 163 to 165). `fillStart` is the
`save` and the `translate` of `stopDrawing` (lines 193 and 194), with the arguments of
the translation. -/
inductive CanvasCmd where
  | clearRect (width height : ℚ)
  | strokeOutline (type : String) (content : Option String) (width height : ℚ)
  | beginStroke (x y : ℚ)
  | lineToStroke (x y : ℚ)
  | fillStart (x y : ℚ)
  deriving DecidableEq, Repr

/-- One visual element appended by `generateVisualFeedback`. -/
inductive Feedback where
  | tap (x y : ℚ)
  | swipe (x y : ℚ)
  deriving DecidableEq, Repr

/-- An exception of the JavaScript runtime, with the file and the line of the statement
that raises it: `typeError` for an assignment to the imported binding `binding`,
`referenceError` for the use of the name `name` that the file neither declares nor
imports. -/
inductive JsError where
  | typeError (file : String) (line : Nat) (binding : String)
  | referenceError (file : String) (line : Nat) (name : String)
  deriving DecidableEq, Repr

/-- The object `AppState` of `state.js`, with the property `isTouching` that
`events.js` adds to it. -/
structure AppState where
  isLocked : Bool
  isParentModeActive : Bool
  isTracingModeActive : Bool
  hasInteracted : Bool
  currentLessonMode : String
  isTouching : Bool
  deriving DecidableEq, Repr

/-- The whole mutable state of the page. -/
structure State where
  app : AppState
  /-- Variable `currentSequenceIndex` of parentMode.js: progress in the corner sequence. -/
  currentSequenceIndex : Nat
  /-- Variable `lastTapTime` of parentMode.js. -/
  lastTapTime : Int
  /-- True while the interval stored in `parentInstructionTimer` is running. -/
  instructionTimerRunning : Bool
  /-- True while the timeout set by `lockScreen` has not fired. -/
  initialTimeoutPending : Bool
  panel : Option Panel
  background : Background
  /-- Variables of tracing.js. -/
  currentTargetToTrace : Option TracingTarget
  currentSequenceIndexTracing : Nat
  isDrawing : Bool
  lastX : ℚ
  lastY : ℚ
  canvasWidth : ℚ
  canvasHeight : ℚ
  /-- True when `tracingCanvas.style.pointerEvents` is 'auto', false when 'none'. -/
  canvasPointerEvents : Bool
  /-- The commands issued to the 2D context, oldest first. -/
  canvas : List CanvasCmd
  /-- The number of `startNewTracingTarget` timeouts set by `stopDrawing` and not fired. -/
  pendingAdvances : Nat
  /-- The elements appended to the feedback area, oldest first. -/
  feedback : List Feedback
  /-- The messages passed to `showCelebrationMessage`, oldest first. -/
  celebrations : List String
  /-- Variable `lastTouchMoveTime` of events.js. -/
  lastTouchMoveTime : Int
  /-- History variable: the values assigned to `currentSequenceIndex`, newest first. -/
  progressWrites : List Nat
  /-- The exceptions raised so far, oldest first; the source catches none. -/
  uncaught : List JsError
  deriving DecidableEq, Repr

/-- A statement raises `error`. Nothing in the source catches it, so the handler that
runs ends here: a definition that uses `raise` stops at the raising statement, and in
the source no caller has a statement after the call that raised. -/
def raise (error : JsError) (s : State) : State :=
  { s with uncaught := s.uncaught ++ [error] }

/-! ## parentMode.js: the gesture constants and `getCorner` -/

def parentModeSequence : List Corner :=
  [Corner.topLeft, Corner.topRight, Corner.bottomRight, Corner.bottomLeft]

def tapTimeout : Int := 2000

def cornerThreshold : ℚ := 0.2

/-- Function `getCorner(x, y)`, with `window.innerWidth` and `window.innerHeight` as
the arguments `width` and `height`. -/
def getCorner (width height x y : ℚ) : Option Corner :=
  if x < width * cornerThreshold ∧ y < height * cornerThreshold then
    some Corner.topLeft
  else if x > width * (1 - cornerThreshold) ∧ y < height * cornerThreshold then
    some Corner.topRight
  else if x > width * (1 - cornerThreshold) ∧ y > height * (1 - cornerThreshold) then
    some Corner.bottomRight
  else if x < width * cornerThreshold ∧ y > height * (1 - cornerThreshold) then
    some Corner.bottomLeft
  else
    none

/-! ## visuals.js -/

/-- Function `generateVisualFeedback(type, x, y, content)` for `type === 'tap'`.  The
body never reads `content`: the text of the element is drawn at random from the
lesson's emojis, or from the fallback list, and is never empty. -/
def generateTapFeedback (x y : ℚ) (s : State) : State :=
  if !s.app.isLocked || s.app.isParentModeActive then s
  else if s.app.isTracingModeActive then s
  else { s with feedback := s.feedback ++ [Feedback.tap x y] }

/-- Function `generateVisualFeedback('swipe', x, y)`. -/
def generateSwipeFeedback (x y : ℚ) (s : State) : State :=
  if !s.app.isLocked || s.app.isParentModeActive then s
  else { s with feedback := s.feedback ++ [Feedback.swipe x y] }

def showCelebrationMessage (message : String) (s : State) : State :=
  { s with celebrations := s.celebrations ++ [message] }

def changeBackgroundGradient (s : State) : State :=
  if !s.app.isLocked || s.app.isParentModeActive || s.app.isTracingModeActive then s
  else { s with background := Background.randomGradient }

/-! ## tracing.js -/

def clearCanvas (s : State) : State :=
  { s with canvas := s.canvas ++ [CanvasCmd.clearRect s.canvasWidth s.canvasHeight],
           canvasPointerEvents := false }

def drawOutline (type : String) (content : Option String) (s : State) : State :=
  let s := clearCanvas s
  { s with canvasPointerEvents := true,
           canvas := s.canvas ++
             [CanvasCmd.strokeOutline type content s.canvasWidth s.canvasHeight] }

/-- Function `resizeCanvas()`, with the window size as arguments. -/
def resizeCanvas (innerWidth innerHeight : ℚ) (s : State) : State :=
  let s := { s with canvasWidth := innerWidth, canvasHeight := innerHeight }
  match s.currentTargetToTrace with
  | some target =>
    if s.app.isTracingModeActive then drawOutline target.type target.content s else s
  | none => s

/-- Function `startDrawing(e)`: after `isDrawing = true`, the last point, `beginPath`,
`moveTo` and the line width, the statement `ctx.strokeStyle = getRandomElement(allColors)`
(line 166) raises `ReferenceError`: tracing.js neither declares nor imports
`getRandomElement`. The assignments of the line cap and join are not reached. -/
def startDrawing (clientX clientY : ℚ) (s : State) : State :=
  if !s.app.isLocked || !s.app.isTracingModeActive then s
  else
    let s := { s with isDrawing := true, lastX := clientX, lastY := clientY,
                      canvas := s.canvas ++ [CanvasCmd.beginStroke clientX clientY] }
    raise (JsError.referenceError "tracing.js" 166 "getRandomElement") s

def draw (clientX clientY : ℚ) (s : State) : State :=
  if !s.isDrawing || !s.app.isLocked || !s.app.isTracingModeActive then s
  else
    { s with canvas := s.canvas ++ [CanvasCmd.lineToStroke clientX clientY],
             lastX := clientX, lastY := clientY }

/-- Function `stopDrawing()`: with tracing active and a target set, after `ctx.save()`
and `ctx.translate(...)` the statement `ctx.fillStyle = getRandomElement(allColors)`
(line 195) raises `ReferenceError`. The path, the fill, `ctx.restore()`, the call of
`showCelebrationMessage` and the `setTimeout` of lines 196 to 229 are not reached. -/
def stopDrawing (s : State) : State :=
  if !s.isDrawing then s
  else
    let s := { s with isDrawing := false }
    match s.currentTargetToTrace with
    | some _ =>
      if s.app.isTracingModeActive then
        let s := { s with canvas := s.canvas ++
                     [CanvasCmd.fillStart (s.canvasWidth / 2) (s.canvasHeight / 2)] }
        raise (JsError.referenceError "tracing.js" 195 "getRandomElement") s
      else s
    | none => s

/-- The array `sequenceArray` that `startNewTracingTarget` selects, and `targetType`. -/
def tracingSequence (mode : String) : List String × String :=
  match LessonDefinitions mode with
  | some config =>
    match config.tracingItems with
    | some items =>
      if config.type = "tracing" ∧ items.length > 0 then
        (items,
          if startsWith mode "shape" then "shape"
          else if startsWith mode "letter" then "letter" else "number")
      else ([], "")
    | none => ([], "")
  | none => ([], "")

def startNewTracingTarget (s : State) : State :=
  let (sequenceArray, targetType) := tracingSequence s.app.currentLessonMode
  if sequenceArray.length > 0 then
    let targetContent := sequenceArray[s.currentSequenceIndexTracing]?
    let s := { s with currentSequenceIndexTracing :=
                 (s.currentSequenceIndexTracing + 1) % sequenceArray.length }
    let s := { s with currentTargetToTrace := some (TracingTarget.mk targetType targetContent) }
    drawOutline targetType targetContent s
  else
    let s := clearCanvas s
    { s with currentTargetToTrace := none }

/-! ## state.js -/

def setLessonMode (mode : String) (s : State) : State :=
  { s with app := { s.app with
      currentLessonMode := mode,
      isTracingModeActive :=
        startsWith mode "shape-" || startsWith mode "letter-" || startsWith mode "number-" } }

def setLocked (locked : Bool) (s : State) : State :=
  { s with app := { s.app with isLocked := locked } }

def setParentModeActive (active : Bool) (s : State) : State :=
  { s with app := { s.app with isParentModeActive := active } }

def setHasInteracted (interacted : Bool) (s : State) : State :=
  { s with app := { s.app with hasInteracted := interacted } }

def resetAppForLock (s : State) : State :=
  { s with app := { s.app with
      isLocked := true, isParentModeActive := false, isTracingModeActive := false,
      hasInteracted := false, currentLessonMode := "freeplay" } }

/-! ## parentMode.js -/

/-- The assignment `currentSequenceIndex = v` in parentMode.js, the module that declares
the variable. -/
def setCurrentSequenceIndex (v : Nat) (s : State) : State :=
  { s with currentSequenceIndex := v, progressWrites := v :: s.progressWrites }

def startParentInstructionTimer (s : State) : State :=
  { s with instructionTimerRunning := decide (s.app.currentLessonMode = "freeplay") }

def stopParentInstructionTimer (s : State) : State :=
  { s with instructionTimerRunning := false }

def hideAllLessonPanels (s : State) : State :=
  { s with panel := none }

/-- Function `showLessonPanel(panelElement)`; `none` is the argument `undefined`, for
which the guard `if (panelElement)` fails and no panel is shown. -/
def showLessonPanel (panelElement : Option Panel) (s : State) : State :=
  let s := hideAllLessonPanels s
  match panelElement with
  | some element => { s with panel := some element }
  | none => s

def activateParentMode (s : State) : State :=
  let s := setParentModeActive true s
  let s := stopParentInstructionTimer s
  let s := showLessonPanel (some Panel.parentControlPanel) s
  { s with background := Background.parentTheme }

/-- Function `deactivateParentMode()`: after the flags, the gesture variables, the
panels, the canvas and the instruction timer, the statement
`const color1 = getRandomElement(allColors)` (line 214) raises `ReferenceError`:
parentMode.js neither declares nor imports `getRandomElement`. The assignment of the
background (line 216), `AppState.setHasInteracted(false)` (line 218) and
`hideCelebrationMessage()` (line 219) are not reached. -/
def deactivateParentMode (s : State) : State :=
  let s := setParentModeActive false s
  let s := setCurrentSequenceIndex 0 s
  let s := { s with lastTapTime := 0 }
  let s := hideAllLessonPanels s
  let s := { s with app := { s.app with isTracingModeActive := false } }
  let s := clearCanvas s
  let s := startParentInstructionTimer s
  raise (JsError.referenceError "parentMode.js" 214 "getRandomElement") s

def returnToParentMenuFromLesson (s : State) : State :=
  let s := setParentModeActive true s
  let s := { s with app := { s.app with isTracingModeActive := false } }
  let s := clearCanvas s
  let s := stopParentInstructionTimer s
  let s := showLessonPanel (some Panel.parentControlPanel) s
  { s with background := Background.parentTheme }

/-- Function `lockScreen()`; its last statement is the call of `deactivateParentMode`,
which raises. -/
def lockScreen (s : State) : State :=
  let s := resetAppForLock s
  let s := setLocked true s
  let s := stopParentInstructionTimer s
  let s := hideAllLessonPanels s
  let s := { s with initialTimeoutPending := true }
  deactivateParentMode s

/-- The callback that `lockScreen` passes to `setTimeout`; it fires once. -/
def initialMessageTimeout (s : State) : State :=
  if s.initialTimeoutPending then
    let s := { s with initialTimeoutPending := false }
    if !s.app.hasInteracted && !s.app.isParentModeActive
        && decide (s.app.currentLessonMode = "freeplay") then
      startParentInstructionTimer s
    else s
  else s

/-- Function `unlockScreen()`; its last statement is the call of `deactivateParentMode`,
which raises. -/
def unlockScreen (s : State) : State :=
  let s := setLocked false s
  let s := stopParentInstructionTimer s
  deactivateParentMode s

/-! ## events.js -/

/-- What `handleTouchStart` reads: the event (`touches[0]` of a touch event, the event
itself for a click), `event.target.tagName`, the window size and `Date.now()`. -/
structure TouchStartInput where
  clientX : ℚ
  clientY : ℚ
  targetTagName : String
  innerWidth : ℚ
  innerHeight : ℚ
  now : Int
  deriving DecidableEq, Repr

/-- What `handleTouchMove` reads; `random` is the draw of `Math.random()`. -/
structure TouchMoveInput where
  clientX : ℚ
  clientY : ℚ
  now : Int
  random : ℚ
  deriving DecidableEq, Repr

/-- What `handleKeyDown` reads; `x` and `y` are the random point it computes. -/
structure KeyDownInput where
  ctrlKey : Bool
  shiftKey : Bool
  key : String
  x : ℚ
  y : ℚ
  deriving DecidableEq, Repr

/-- How a block of statements ends: normally, or by an exception that goes on to the
caller; in both cases in the state reached. -/
inductive Completion where
  | normal (s : State)
  | abrupt (error : JsError) (s : State)
  deriving DecidableEq, Repr

/-- Sequencing of statements: what follows runs only after a normal end. -/
def Completion.andThen (c : Completion) (rest : State → Completion) : Completion :=
  match c with
  | Completion.normal s => rest s
  | Completion.abrupt error s => Completion.abrupt error s

/-- The state in which a handler ends: an exception that reaches the handler's end is
uncaught. -/
def Completion.finish (c : Completion) : State :=
  match c with
  | Completion.normal s => s
  | Completion.abrupt error s => raise error s

/-- An assignment of events.js at `line` to `currentSequenceIndex` or `lastTapTime`
(`= 0`, `++`, `= currentTime`). Both names are bindings that events.js imports from
parentMode.js (line 6), and an imported binding cannot be assigned: the statement raises
`TypeError` and the variable keeps its value. -/
def assignImportedBinding (line : Nat) (binding : String) (s : State) : Completion :=
  Completion.abrupt (JsError.typeError "events.js" line binding) s

/-- Function `handleKeyDown(event)`; the call of `unlockScreen` is the last statement of
its branch. -/
def handleKeyDown (event : KeyDownInput) (s : State) : State :=
  if s.app.isLocked then
    if event.ctrlKey && event.shiftKey && decide (event.key = "L") then
      unlockScreen s
    else if !s.app.isParentModeActive && !s.app.isTracingModeActive then
      let s := generateTapFeedback event.x event.y s
      changeBackgroundGradient s
    else s
  else s

/-- The block `// Parent Mode Activation Logic` of `handleTouchStart` (lines 148-167),
on the values the handler has computed before it. The source reads
`currentSequenceIndex` and `lastTapTime` through the imported bindings, which give the
values of parentMode.js. -/
def parentModeActivationLogic (tappedCorner : Option Corner) (currentTime : Int)
    (targetIsButton : Bool) (s : State) : Completion :=
  if !s.app.isParentModeActive && tappedCorner.isSome && !targetIsButton then
    (if currentTime - s.lastTapTime > tapTimeout then
        assignImportedBinding 152 "currentSequenceIndex" s
      else Completion.normal s).andThen fun s =>
    (if tappedCorner = parentModeSequence[s.currentSequenceIndex]? then
        (assignImportedBinding 156 "currentSequenceIndex" s).andThen fun s =>
        if s.currentSequenceIndex = parentModeSequence.length then
          (Completion.normal (activateParentMode s)).andThen fun s =>
          assignImportedBinding 159 "currentSequenceIndex" s
        else Completion.normal s
      else
        assignImportedBinding 162 "currentSequenceIndex" s).andThen fun s =>
    assignImportedBinding 164 "lastTapTime" s
  else if !s.app.isParentModeActive && !targetIsButton then
    assignImportedBinding 166 "currentSequenceIndex" s
  else Completion.normal s

/-- The last block of `handleTouchStart` (lines 169-177); the call of `startDrawing` is
the last statement of its branch. -/
def toddlerInteraction (clientX clientY : ℚ) (s : State) : State :=
  if !s.app.isParentModeActive then
    let s := setHasInteracted true s
    if s.app.isTracingModeActive then
      startDrawing clientX clientY s
    else
      let s := generateTapFeedback clientX clientY s
      changeBackgroundGradient s
  else s

/-- Function `handleTouchStart(event)`: the last block runs only when the gesture block
has ended normally. -/
def handleTouchStart (event : TouchStartInput) (s : State) : State :=
  if s.app.isLocked then
    let s := { s with app := { s.app with isTouching := true } }
    let tappedCorner := getCorner event.innerWidth event.innerHeight event.clientX event.clientY
    let currentTime := event.now
    let targetIsButton := decide (event.targetTagName = "BUTTON")
    ((parentModeActivationLogic tappedCorner currentTime targetIsButton s).andThen
      fun s => Completion.normal (toddlerInteraction event.clientX event.clientY s)).finish
  else s

def touchMoveThrottle : Int := 30

def handleTouchMove (event : TouchMoveInput) (s : State) : State :=
  if s.app.isLocked && s.app.isTouching && !s.app.isParentModeActive then
    let currentTime := event.now
    let s := if s.app.isTracingModeActive then draw event.clientX event.clientY s else s
    if currentTime - s.lastTouchMoveTime > touchMoveThrottle then
      let s := generateSwipeFeedback event.clientX event.clientY s
      let s := { s with lastTouchMoveTime := currentTime }
      if event.random < 0.02 then changeBackgroundGradient s else s
    else s
  else s

/-- Function `handleTouchEnd(event)`; the call of `stopDrawing` is its last statement. -/
def handleTouchEnd (s : State) : State :=
  if s.app.isLocked then
    let s := { s with app := { s.app with isTouching := false } }
    if s.app.isTracingModeActive then stopDrawing s else s
  else s

/-- The buttons that `registerEventListeners` gives a click listener. -/
inductive Button where
  | colorBtn
  | shapeBtn
  | letterNumberBtn
  | freeplayBtn
  | colorPrimaryBtn
  | colorAllBtn
  | colorBackBtn
  | shapeBasicBtn
  | shapeAdvancedBtn
  | shapeBackBtn
  | letterAZBtn
  | number09Btn
  | letterNumberBackBtn
  | backToParentMenuFromLessonBtn
  deriving DecidableEq, Repr

/-- The click listeners registered by `registerEventListeners` (lines 51-110), by
button.
* The panel listeners call `showLessonPanel` with a property of `elements` that
  `main.js` does not pass: the argument is `undefined`.
* The listeners of the lesson buttons call `AppState.setLessonMode`, then
  `deactivateParentMode()`, a name that events.js neither declares nor imports:
  `ReferenceError` at that line. The call of `startNewTracingTarget()` that follows in
  the tracing lessons is not reached.
* The listeners of the two back buttons of the lesson panels assign
  `AppState.isTracingModeActive = false`, then call `clearCanvas()`, not in scope
  either: `ReferenceError`; `showLessonPanel` is not reached.
* The last listener is `returnToParentMenuFromLesson`, which events.js imports. -/
def clickListener (b : Button) (s : State) : State :=
  match b with
  | Button.colorBtn => showLessonPanel none s
  | Button.shapeBtn => showLessonPanel none s
  | Button.letterNumberBtn => showLessonPanel none s
  | Button.freeplayBtn =>
    raise (JsError.referenceError "events.js" 57 "deactivateParentMode")
      (setLessonMode "freeplay" s)
  | Button.colorPrimaryBtn =>
    raise (JsError.referenceError "events.js" 64 "deactivateParentMode")
      (setLessonMode "color-primary" s)
  | Button.colorAllBtn =>
    raise (JsError.referenceError "events.js" 69 "deactivateParentMode")
      (setLessonMode "color-all" s)
  | Button.colorBackBtn => showLessonPanel none s
  | Button.shapeBasicBtn =>
    raise (JsError.referenceError "events.js" 76 "deactivateParentMode")
      (setLessonMode "shape-basic" s)
  | Button.shapeAdvancedBtn =>
    raise (JsError.referenceError "events.js" 82 "deactivateParentMode")
      (setLessonMode "shape-advanced" s)
  | Button.shapeBackBtn =>
    let s := { s with app := { s.app with isTracingModeActive := false } }
    raise (JsError.referenceError "events.js" 87 "clearCanvas") s
  | Button.letterAZBtn =>
    raise (JsError.referenceError "events.js" 94 "deactivateParentMode")
      (setLessonMode "letter-az" s)
  | Button.number09Btn =>
    raise (JsError.referenceError "events.js" 100 "deactivateParentMode")
      (setLessonMode "number-09" s)
  | Button.letterNumberBackBtn =>
    let s := { s with app := { s.app with isTracingModeActive := false } }
    raise (JsError.referenceError "events.js" 105 "clearCanvas") s
  | Button.backToParentMenuFromLessonBtn => returnToParentMenuFromLesson s

/-- The callback that `stopDrawing` passes to `setTimeout` (tracing.js, lines 227-229);
it runs when one is pending. -/
def advanceTimeout (s : State) : State :=
  if s.pendingAdvances = 0 then s
  else startNewTracingTarget { s with pendingAdvances := s.pendingAdvances - 1 }

/-! ## main.js: page load and the events that follow -/

/-- The values the modules give their variables when they are loaded; the canvas has
the default size of a canvas element until `initCanvas` resizes it. -/
def moduleState : State :=
  { app := { isLocked := true, isParentModeActive := false, isTracingModeActive := false,
             hasInteracted := false, currentLessonMode := "freeplay", isTouching := false },
    currentSequenceIndex := 0, lastTapTime := 0,
    instructionTimerRunning := false, initialTimeoutPending := false,
    panel := none, background := Background.stylesheet,
    currentTargetToTrace := none, currentSequenceIndexTracing := 0,
    isDrawing := false, lastX := 0, lastY := 0,
    canvasWidth := 300, canvasHeight := 150, canvasPointerEvents := false, canvas := [],
    pendingAdvances := 0, feedback := [], celebrations := [],
    lastTouchMoveTime := 0, progressWrites := [], uncaught := [] }

/-- The handler `window.onload`: `initCanvas` (which resizes the canvas),
`resizeCanvas`, then `lockScreen`, its last statement, which raises. -/
def onload (innerWidth innerHeight : ℚ) : State :=
  lockScreen (resizeCanvas innerWidth innerHeight
    (resizeCanvas innerWidth innerHeight moduleState))

/-- Whatever the browser can deliver after page load: the listeners of events.js, the
resize listener and the two timeout callbacks. -/
inductive Op where
  | touchStart (event : TouchStartInput)
  | touchMove (event : TouchMoveInput)
  | touchEnd
  | keyDown (event : KeyDownInput)
  | click (b : Button)
  | resize (innerWidth innerHeight : ℚ)
  | advanceTimeout
  | initialMessageTimeout
  deriving DecidableEq, Repr

def step (s : State) (op : Op) : State :=
  match op with
  | Op.touchStart event => handleTouchStart event s
  | Op.touchMove event => handleTouchMove event s
  | Op.touchEnd => handleTouchEnd s
  | Op.keyDown event => handleKeyDown event s
  | Op.click b => clickListener b s
  | Op.resize w h => resizeCanvas w h s
  | Op.advanceTimeout => advanceTimeout s
  | Op.initialMessageTimeout => initialMessageTimeout s

/-- The state after page load in a window of the given size, followed by `ops`. -/
def run (innerWidth innerHeight : ℚ) (ops : List Op) : State :=
  ops.foldl step (onload innerWidth innerHeight)

/-! ## Definitions used by the statements -/

/-- The corner that `handleTouchStart` computes for an event. -/
def tappedCorner (event : TouchStartInput) : Option Corner :=
  getCorner event.innerWidth event.innerHeight event.clientX event.clientY

/-- The test `event.target.tagName === 'BUTTON'`. -/
def targetIsButton (event : TouchStartInput) : Bool :=
  decide (event.targetTagName = "BUTTON")

/-- A call of `handleTouchStart` activates parent mode: it is off before the call and
on after it. -/
def activatesParentMode (event : TouchStartInput) (s : State) : Bool :=
  !s.app.isParentModeActive && (handleTouchStart event s).app.isParentModeActive

/-- The gesture logic of `handleTouchStart` evaluates the tap: the screen is locked
(line 140), parent mode is off and the target is not a button (lines 150 and 165). -/
def evaluatesGesture (event : TouchStartInput) (s : State) : Bool :=
  s.app.isLocked && !s.app.isParentModeActive && !targetIsButton event

/-- The line of events.js whose assignment a tap that the gesture logic evaluates
reaches first: line 166 for a tap in no corner; for a corner tap the reset of line 152
when it comes more than `tapTimeout` after `lastTapTime`, otherwise the increment of
line 156 when the corner is the expected one and the reset of line 162 when it is
not. -/
def firstAssignmentLine (event : TouchStartInput) (s : State) : Nat :=
  match tappedCorner event with
  | none => 166
  | some c =>
    if event.now - s.lastTapTime > tapTimeout then 152
    else if some c = parentModeSequence[s.currentSequenceIndex]? then 156
    else 162

/-- The state after a run of consecutive `handleTouchStart` calls, oldest first. -/
def tapAll (events : List TouchStartInput) (s : State) : State :=
  events.foldl (fun s event => handleTouchStart event s) s

/-- In a history of assignments (newest first), every assignment of 4 is directly
followed by an assignment of 0. -/
def resetAfterFour : List Nat → Bool
  | [] => true
  | [_] => true
  | newer :: older :: rest => (older != 4 || newer == 0) && resetAfterFour (older :: rest)

/-- The gesture variables as parentMode.js leaves them: progress 0, `lastTapTime` 0, and
0 the only value ever assigned to progress. -/
def GestureAtRest (s : State) : Prop :=
  s.currentSequenceIndex = 0 ∧ s.lastTapTime = 0 ∧
  s.progressWrites.head? = some 0 ∧ ∀ v ∈ s.progressWrites, v = 0

/-- The invariant of the specification: the tracing flag is on exactly when the lesson
is of type 'tracing' and parent mode is off. -/
def TracingFlagAgrees (s : State) : Prop :=
  s.app.isTracingModeActive = true ↔
    ((LessonDefinitions s.app.currentLessonMode).map (fun config => config.type) =
        some "tracing" ∧
      s.app.isParentModeActive = false)

/-! ## Concrete inputs -/

/-- A tap on a non-button element at `(x, y)` at time `now`, in a 1000 by 800 window. -/
def tapAt (x y : ℚ) (now : Int) : TouchStartInput :=
  { clientX := x, clientY := y, targetTagName := "DIV",
    innerWidth := 1000, innerHeight := 800, now := now }

def tapTopLeft (now : Int) : TouchStartInput := tapAt 10 10 now

def tapTopRight (now : Int) : TouchStartInput := tapAt 990 10 now

def tapBottomRight (now : Int) : TouchStartInput := tapAt 990 790 now

def tapBottomLeft (now : Int) : TouchStartInput := tapAt 10 790 now

def tapCentre (now : Int) : TouchStartInput := tapAt 500 400 now

def buttonTapTopLeft (now : Int) : TouchStartInput :=
  { tapAt 10 10 now with targetTagName := "BUTTON" }

/-- The state after page load in a 1000 by 800 window and one top-left tap at 5000. -/
def stateAfterTopLeft : State :=
  tapAll [tapTopLeft 5000] (onload 1000 800)

/-- The state after page load in a 1000 by 800 window and the first three taps of the
sequence, 500 ms apart. -/
def stateBeforeCompletion : State :=
  tapAll [tapTopLeft 5000, tapTopRight 5500, tapBottomRight 6000] (onload 1000 800)

/-! ## Concrete runs and call sequences -/

/-- The four taps of the corner sequence, 500 ms apart. -/
def openParentMenu : List Op :=
  [Op.touchStart (tapTopLeft 5000), Op.touchStart (tapTopRight 5500),
   Op.touchStart (tapBottomRight 6000), Op.touchStart (tapBottomLeft 6500)]

/-- The exceptions that are uncaught after page load and the taps of `openParentMenu`:
the one of `deactivateParentMode`, called by `lockScreen`, and one for each tap. -/
def uncaughtAfterCornerTaps : List JsError :=
  [JsError.referenceError "parentMode.js" 214 "getRandomElement",
   JsError.typeError "events.js" 152 "currentSequenceIndex",
   JsError.typeError "events.js" 152 "currentSequenceIndex",
   JsError.typeError "events.js" 152 "currentSequenceIndex",
   JsError.typeError "events.js" 152 "currentSequenceIndex"]

/-- The state after page load in a 1000 by 800 window and the taps of `openParentMenu`,
written out. -/
def afterCornerTaps : State :=
  { app := { isLocked := true, isParentModeActive := false, isTracingModeActive := false,
             hasInteracted := false, currentLessonMode := "freeplay", isTouching := true },
    currentSequenceIndex := 0, lastTapTime := 0,
    instructionTimerRunning := true, initialTimeoutPending := true,
    panel := none, background := Background.stylesheet,
    currentTargetToTrace := none, currentSequenceIndexTracing := 0,
    isDrawing := false, lastX := 0, lastY := 0,
    canvasWidth := 1000, canvasHeight := 800, canvasPointerEvents := false,
    canvas := [CanvasCmd.clearRect 1000 800],
    pendingAdvances := 0, feedback := [], celebrations := [], lastTouchMoveTime := 0,
    progressWrites := [0], uncaught := uncaughtAfterCornerTaps }

/-- After page load, the calls `AppState.setLessonMode('shape-basic')` and
`startNewTracingTarget()`: the first outline of the basic-shapes lesson is shown. -/
def firstOutline : State :=
  startNewTracingTarget (setLessonMode "shape-basic" (onload 1000 800))

/-- After page load, `AppState.setLessonMode('letter-az')`, three calls of
`startNewTracingTarget()`, then `AppState.setLessonMode('shape-basic')`. -/
def lettersThenShapes : State :=
  setLessonMode "shape-basic"
    (startNewTracingTarget (startNewTracingTarget (startNewTracingTarget
      (setLessonMode "letter-az" (onload 1000 800)))))

/-- After page load, a tap on a button (which sets `hasInteracted`), then the call
`activateParentMode()`. -/
def interactedInParentMode : State :=
  activateParentMode (handleTouchStart (buttonTapTopLeft 5000) (onload 1000 800))

/-! ## `startNewTracingTarget` over an arbitrary catalogue -/

/-- The selection of `tracingSequence`, with the object `LessonDefinitions` replaced by
an arbitrary catalogue, so that a lesson without tracing items can be looked up. -/
def tracingSequenceIn (catalog : String → Option LessonDefinition) (mode : String) :
    List String × String :=
  match catalog mode with
  | some config =>
    match config.tracingItems with
    | some items =>
      if config.type = "tracing" ∧ items.length > 0 then
        (items,
          if startsWith mode "shape" then "shape"
          else if startsWith mode "letter" then "letter" else "number")
      else ([], "")
    | none => ([], "")
  | none => ([], "")

/-- Function `startNewTracingTarget()` reading the catalogue `catalog`. -/
def startNewTracingTargetIn (catalog : String → Option LessonDefinition) (s : State) :
    State :=
  let (sequenceArray, targetType) := tracingSequenceIn catalog s.app.currentLessonMode
  if sequenceArray.length > 0 then
    let targetContent := sequenceArray[s.currentSequenceIndexTracing]?
    let s := { s with currentSequenceIndexTracing :=
                 (s.currentSequenceIndexTracing + 1) % sequenceArray.length }
    let s := { s with currentTargetToTrace := some (TracingTarget.mk targetType targetContent) }
    drawOutline targetType targetContent s
  else
    let s := clearCanvas s
    { s with currentTargetToTrace := none }

/-- A catalogue whose only lesson is a tracing lesson with no items. -/
def emptyTracingCatalog (id : String) : Option LessonDefinition :=
  if id = "shape-none" then
    some { type := "tracing", emojis := none, colors := none, tracingItems := some [],
           allowSwipeTrail := true }
  else none

/-- The buttons that start a tracing lesson. -/
def tracingLessonButtons : List Button :=
  [Button.shapeBasicBtn, Button.shapeAdvancedBtn, Button.letterAZBtn, Button.number09Btn]

/-- The lesson identifier that the listener of a button passes to
`AppState.setLessonMode`, and the line of its call of `deactivateParentMode`. -/
def lessonOfButton : Button → Option (String × Nat)
  | Button.freeplayBtn => some ("freeplay", 57)
  | Button.colorPrimaryBtn => some ("color-primary", 64)
  | Button.colorAllBtn => some ("color-all", 69)
  | Button.shapeBasicBtn => some ("shape-basic", 76)
  | Button.shapeAdvancedBtn => some ("shape-advanced", 82)
  | Button.letterAZBtn => some ("letter-az", 94)
  | Button.number09Btn => some ("number-09", 100)
  | _ => none

/-! ## Strokes at the level of tracing.js -/

/-- One stroke: `startDrawing` at a point, `stopDrawing`, then the callback of
`stopDrawing` when one is pending. -/
def completedStroke (p : ℚ × ℚ) (s : State) : State :=
  advanceTimeout (stopDrawing (startDrawing p.1 p.2 s))

/-- Consecutive strokes, one for each point of the list. -/
def traceAll (points : List (ℚ × ℚ)) (s : State) : State :=
  points.foldl (fun s p => completedStroke p s) s

/-! ## tracing.js: the calls on the 2D context of `drawOutline` and of `stopDrawing` -/

/-- A coordinate passed to the 2D context: a rational, or a radius times the cosine or
the sine of an angle. Angles are written as the rational factor of `Math.PI`. -/
inductive Num where
  | rat (q : ℚ)
  | cosTimes (radius rot : ℚ)
  | sinTimes (radius rot : ℚ)
  deriving DecidableEq, Repr

/-- The calls and property assignments on the 2D context that `drawOutline` and
`stopDrawing` make. Angles are rational factors of `Math.PI`. -/
inductive CtxCall where
  | setLineWidth (width : ℚ)
  | setStrokeStyle (style : String)
  | setFillStyle (style : String)
  | setLineCap (cap : String)
  | setLineJoin (join : String)
  | save
  | restore
  | translate (x y : ℚ)
  | beginPath
  | arc (x y radius startAngle endAngle : ℚ)
  | rect (x y w h : ℚ)
  | moveTo (x y : Num)
  | lineTo (x y : Num)
  | bezierCurveTo (cp1x cp1y cp2x cp2y x y : ℚ)
  | closePath
  | stroke
  | fill
  | setFont (px : ℚ) (family : String)
  | setTextAlign (align : String)
  | setTextBaseline (baseline : String)
  | strokeText (text : Option String) (x y : ℚ)
  | fillText (text : Option String) (x y : ℚ)
  deriving DecidableEq, Repr

/-- The loop `for (let i = 0; i < 5; i++)` of the two star branches of `drawOutline`
(lines 97-107 and 129-139), for `count` iterations from the angle `rot`. -/
def outlineStarLoop (count : Nat) (outerRadius innerRadius rot step : ℚ) : List CtxCall :=
  match count with
  | 0 => []
  | n + 1 =>
    CtxCall.lineTo (Num.cosTimes outerRadius rot) (Num.sinTimes outerRadius rot) ::
    CtxCall.lineTo (Num.cosTimes innerRadius (rot + step))
      (Num.sinTimes innerRadius (rot + step)) ::
    outlineStarLoop n outerRadius innerRadius (rot + step + step) step

/-- The branch `type === 'shape'` of `drawOutline` between `beginPath` and `stroke`
(lines 79-141). -/
def outlineShapePath (content : Option String) (size : ℚ) : List CtxCall :=
  if content = some "●" then
    [CtxCall.arc 0 0 (size / 2) 0 2]
  else if content = some "■" then
    [CtxCall.rect (-size / 2) (-size / 2) size size]
  else if content = some "▲" then
    [CtxCall.moveTo (Num.rat 0) (Num.rat (-size / 2)),
     CtxCall.lineTo (Num.rat (size / 2)) (Num.rat (size / 2)),
     CtxCall.lineTo (Num.rat (-size / 2)) (Num.rat (size / 2)),
     CtxCall.closePath]
  else if content = some "★" then
    let outerRadius := size / 2
    let innerRadius := outerRadius / 2.5
    let rot : ℚ := 1 / 2 * 3
    let step : ℚ := 1 / 5
    [CtxCall.moveTo (Num.rat 0) (Num.rat (-outerRadius))] ++
      outlineStarLoop 5 outerRadius innerRadius rot step ++ [CtxCall.closePath]
  else if content = some "◆" then
    [CtxCall.moveTo (Num.rat 0) (Num.rat (-size / 2)),
     CtxCall.lineTo (Num.rat (size / 2)) (Num.rat 0),
     CtxCall.lineTo (Num.rat 0) (Num.rat (size / 2)),
     CtxCall.lineTo (Num.rat (-size / 2)) (Num.rat 0),
     CtxCall.closePath]
  else if content = some "❤" then
    [CtxCall.moveTo (Num.rat 0) (Num.rat (size * 0.2)),
     CtxCall.bezierCurveTo (size * 0.5) (-size * 0.5) size (size * 0.1) 0 (size * 0.8),
     CtxCall.bezierCurveTo (-size) (size * 0.1) (-size * 0.5) (-size * 0.5) 0 (size * 0.2),
     CtxCall.closePath]
  else if content = some "⭐" then
    let outerRadius := size / 2
    let innerRadius := outerRadius * 0.4
    let rot : ℚ := 1 / 2 * 3
    let step : ℚ := 1 / 5
    [CtxCall.moveTo (Num.rat 0) (Num.rat (-outerRadius))] ++
      outlineStarLoop 5 outerRadius innerRadius rot step ++ [CtxCall.closePath]
  else []

/-- Function `drawOutline(type, content)` from line 64 on, on a canvas of the given
size: what the log entry `CanvasCmd.strokeOutline type content width height` stands
for. -/
def drawOutlineCalls (type : String) (content : Option String) (width height : ℚ) :
    List CtxCall :=
  let centerX := width / 2
  let centerY := height / 2
  let size := min width height * 0.4
  [CtxCall.setLineWidth 5, CtxCall.setStrokeStyle "rgba(255, 255, 255, 0.3)",
   CtxCall.setLineCap "round", CtxCall.setLineJoin "round",
   CtxCall.save, CtxCall.translate centerX centerY] ++
  (if type = "shape" then
    [CtxCall.beginPath] ++ outlineShapePath content size ++ [CtxCall.stroke]
  else if type = "letter" ∨ type = "number" then
    [CtxCall.setFont (size * 0.8) "'Inter', sans-serif", CtxCall.setTextAlign "center",
     CtxCall.setTextBaseline "middle", CtxCall.strokeText content 0 0]
  else []) ++
  [CtxCall.restore]

/-- The loop `for (let i = 0; i < 5; i++)` of the two star branches of `stopDrawing`
(lines 205 and 212), among the statements that are not reached. -/
def fillStarLoop (count : Nat) (outerRadius innerRadius rot step : ℚ) : List CtxCall :=
  match count with
  | 0 => []
  | n + 1 =>
    CtxCall.lineTo (Num.cosTimes outerRadius rot) (Num.sinTimes outerRadius rot) ::
    CtxCall.lineTo (Num.cosTimes innerRadius (rot + step))
      (Num.sinTimes innerRadius (rot + step)) ::
    fillStarLoop n outerRadius innerRadius (rot + step + step) step

/-- The branch `currentTargetToTrace.type === 'shape'` of `stopDrawing` between
`beginPath` and `fill` (lines 200-213), among the statements that are not reached. -/
def fillShapePath (content : Option String) (size : ℚ) : List CtxCall :=
  if content = some "●" then
    [CtxCall.arc 0 0 (size / 2) 0 2]
  else if content = some "■" then
    [CtxCall.rect (-size / 2) (-size / 2) size size]
  else if content = some "▲" then
    [CtxCall.moveTo (Num.rat 0) (Num.rat (-size / 2)),
     CtxCall.lineTo (Num.rat (size / 2)) (Num.rat (size / 2)),
     CtxCall.lineTo (Num.rat (-size / 2)) (Num.rat (size / 2)),
     CtxCall.closePath]
  else if content = some "★" then
    let outerRadius := size / 2
    let innerRadius := outerRadius / 2.5
    let rot : ℚ := 1 / 2 * 3
    let step : ℚ := 1 / 5
    [CtxCall.moveTo (Num.rat 0) (Num.rat (-outerRadius))] ++
      fillStarLoop 5 outerRadius innerRadius rot step ++ [CtxCall.closePath]
  else if content = some "◆" then
    [CtxCall.moveTo (Num.rat 0) (Num.rat (-size / 2)),
     CtxCall.lineTo (Num.rat (size / 2)) (Num.rat 0),
     CtxCall.lineTo (Num.rat 0) (Num.rat (size / 2)),
     CtxCall.lineTo (Num.rat (-size / 2)) (Num.rat 0),
     CtxCall.closePath]
  else if content = some "❤" then
    [CtxCall.moveTo (Num.rat 0) (Num.rat (size * 0.2)),
     CtxCall.bezierCurveTo (size * 0.5) (-size * 0.5) size (size * 0.1) 0 (size * 0.8),
     CtxCall.bezierCurveTo (-size) (size * 0.1) (-size * 0.5) (-size * 0.5) 0 (size * 0.2),
     CtxCall.closePath]
  else if content = some "⭐" then
    let outerRadius := size / 2
    let innerRadius := outerRadius * 0.4
    let rot : ℚ := 1 / 2 * 3
    let step : ℚ := 1 / 5
    [CtxCall.moveTo (Num.rat 0) (Num.rat (-outerRadius))] ++
      fillStarLoop 5 outerRadius innerRadius rot step ++ [CtxCall.closePath]
  else []

/-- The calls that the fill block of `stopDrawing` (lines 193-221) issues on a canvas
of the given size: `ctx.save()` and `ctx.translate(...)`; the statement that follows
raises. What the log entry `CanvasCmd.fillStart (width / 2) (height / 2)` stands for. -/
def stopDrawingFillCalls (width height : ℚ) : List CtxCall :=
  [CtxCall.save, CtxCall.translate (width / 2) (height / 2)]

/-- The statements of the fill block of `stopDrawing` from line 195 to line 221, which
the exception of line 195 keeps from running: the assignment of the fill colour (with
`fillColor` for the colour that `getRandomElement` would give), the path or the text of
the target, the fill and `ctx.restore()`. -/
def fillStatementsNotReached (target : TracingTarget) (width height : ℚ)
    (fillColor : String) : List CtxCall :=
  let size := min width height * 0.4
  [CtxCall.setFillStyle fillColor] ++
  (if target.type = "shape" then
    [CtxCall.beginPath] ++ fillShapePath target.content size ++ [CtxCall.fill]
  else if target.type = "letter" ∨ target.type = "number" then
    [CtxCall.setFont (size * 0.8) "'Inter', sans-serif", CtxCall.setTextAlign "center",
     CtxCall.setTextBaseline "middle", CtxCall.fillText target.content 0 0]
  else []) ++
  [CtxCall.restore]

/-- A call without what distinguishes a fill from a stroke: the assignments of widths,
caps, joins and colours are dropped, `fill` is read as `stroke` and `fillText` as
`strokeText`. -/
def geometryCall : CtxCall → Option CtxCall
  | CtxCall.setLineWidth _ => none
  | CtxCall.setStrokeStyle _ => none
  | CtxCall.setFillStyle _ => none
  | CtxCall.setLineCap _ => none
  | CtxCall.setLineJoin _ => none
  | CtxCall.fill => some CtxCall.stroke
  | CtxCall.fillText text x y => some (CtxCall.strokeText text x y)
  | call => some call

/-- The geometry of a sequence of calls: the translation, the path or text calls and
their arguments, in order. -/
def geometry (calls : List CtxCall) : List CtxCall :=
  calls.filterMap geometryCall

/-! ## Definitions used by the statements on the lock and on the lesson identifiers -/

/-- The test `event.ctrlKey && event.shiftKey && event.key === 'L'` of `handleKeyDown`
(line 123). -/
def isUnlockCombination (event : KeyDownInput) : Bool :=
  event.ctrlKey && event.shiftKey && decide (event.key = "L")

/-- The operation is a keydown with the unlock combination. -/
def isUnlockKeyDown : Op → Bool
  | Op.keyDown event => isUnlockCombination event
  | _ => false

/-- The keydown of Ctrl+Shift+L. -/
def keyCtrlShiftL : KeyDownInput :=
  { ctrlKey := true, shiftKey := true, key := "L", x := 500, y := 400 }

/-- The keydown of Shift+L, without Ctrl. -/
def keyShiftL : KeyDownInput :=
  { ctrlKey := false, shiftKey := true, key := "L", x := 500, y := 400 }

/-- The keydown of Ctrl+L without Shift, which gives the key 'l'. -/
def keyCtrlLowerL : KeyDownInput :=
  { ctrlKey := true, shiftKey := false, key := "l", x := 500, y := 400 }

/-- The taps of the corner sequence, clicks on lesson buttons, a tap, a swipe, the
timeout callbacks, keys pressed without the full combination, and a resize. -/
def busyWithoutUnlock : List Op :=
  openParentMenu ++
    [Op.click Button.shapeBtn, Op.click Button.shapeBasicBtn,
     Op.touchStart (tapCentre 9000),
     Op.touchMove { clientX := 510, clientY := 410, now := 9100, random := 0.5 },
     Op.touchEnd, Op.advanceTimeout, Op.initialMessageTimeout,
     Op.keyDown keyShiftL, Op.keyDown keyCtrlLowerL, Op.resize 800 600,
     Op.click Button.backToParentMenuFromLessonBtn, Op.click Button.freeplayBtn]

/-- The keys of the object `LessonDefinitions`, in the order of the source. -/
def lessonIdentifiers : List String :=
  ["freeplay", "color-primary", "color-all", "shape-basic", "shape-advanced",
   "letter-az", "number-09"]

/-! ## Definitions used by the statements on the star outlines -/

/-- The vertices of the `lineTo` calls of a sequence of calls, in order. -/
def lineToVertices (calls : List CtxCall) : List (Num × Num) :=
  calls.filterMap (fun call =>
    match call with
    | CtxCall.lineTo x y => some (x, y)
    | _ => none)

/-- The value of a coordinate in a field, given `cosPi a` for the cosine of `a` times π
and `sinPi a` for the sine of `a` times π. -/
def Num.value {α : Type} [Field α] (cosPi sinPi : ℚ → α) : Num → α
  | Num.rat q => (q : α)
  | Num.cosTimes radius rot => (radius : α) * cosPi rot
  | Num.sinTimes radius rot => (radius : α) * sinPi rot

/-- The point at the distance `radius` from the origin and at the polar angle of
`degrees` degrees, which is the angle of `degrees / 180` times π. -/
def polarPoint (radius degrees : ℚ) : Num × Num :=
  (Num.cosTimes radius (degrees / 180), Num.sinTimes radius (degrees / 180))

/-- Vertex `k` of a star as the specification describes it: at the polar angle
270° + 36°·k, at `outerRadius` when `k` is even and at `innerRadius` when `k` is odd. -/
def starVertex (outerRadius innerRadius : ℚ) (k : Nat) : Num × Num :=
  polarPoint (if k % 2 = 0 then outerRadius else innerRadius) (270 + 36 * k)

/-- The outer radius `R` of the specification: half of the size `0.4 * min(width, height)`. -/
def starOuterRadius (width height : ℚ) : ℚ := 0.4 * min width height / 2

/-- The inner radius of the specification: `R / 2.5` for '★' and `0.4 * R` for '⭐'. -/
def starInnerRadius (content : String) (outerRadius : ℚ) : ℚ :=
  if content = "★" then outerRadius / 2.5 else 0.4 * outerRadius


/-! ## The gesture variables under the operations that do not assign them -/

@[simp] theorem raise_gesture (e : JsError) (s : State) :
    (raise e s).currentSequenceIndex = s.currentSequenceIndex ∧
    (raise e s).lastTapTime = s.lastTapTime ∧
    (raise e s).progressWrites = s.progressWrites := ⟨rfl, rfl, rfl⟩

@[simp] theorem generateTapFeedback_gesture (x y : ℚ) (s : State) :
    (generateTapFeedback x y s).currentSequenceIndex = s.currentSequenceIndex ∧
    (generateTapFeedback x y s).lastTapTime = s.lastTapTime ∧
    (generateTapFeedback x y s).progressWrites = s.progressWrites := by
  refine ⟨?_, ?_, ?_⟩ <;> unfold generateTapFeedback <;> (repeat' split) <;> simp

@[simp] theorem generateSwipeFeedback_gesture (x y : ℚ) (s : State) :
    (generateSwipeFeedback x y s).currentSequenceIndex = s.currentSequenceIndex ∧
    (generateSwipeFeedback x y s).lastTapTime = s.lastTapTime ∧
    (generateSwipeFeedback x y s).progressWrites = s.progressWrites := by
  refine ⟨?_, ?_, ?_⟩ <;> unfold generateSwipeFeedback <;> (repeat' split) <;> simp

@[simp] theorem showCelebrationMessage_gesture (m : String) (s : State) :
    (showCelebrationMessage m s).currentSequenceIndex = s.currentSequenceIndex ∧
    (showCelebrationMessage m s).lastTapTime = s.lastTapTime ∧
    (showCelebrationMessage m s).progressWrites = s.progressWrites := ⟨rfl, rfl, rfl⟩

@[simp] theorem changeBackgroundGradient_gesture (s : State) :
    (changeBackgroundGradient s).currentSequenceIndex = s.currentSequenceIndex ∧
    (changeBackgroundGradient s).lastTapTime = s.lastTapTime ∧
    (changeBackgroundGradient s).progressWrites = s.progressWrites := by
  refine ⟨?_, ?_, ?_⟩ <;> unfold changeBackgroundGradient <;> (repeat' split) <;> simp

@[simp] theorem clearCanvas_gesture (s : State) :
    (clearCanvas s).currentSequenceIndex = s.currentSequenceIndex ∧
    (clearCanvas s).lastTapTime = s.lastTapTime ∧
    (clearCanvas s).progressWrites = s.progressWrites := ⟨rfl, rfl, rfl⟩

@[simp] theorem drawOutline_gesture (t : String) (c : Option String) (s : State) :
    (drawOutline t c s).currentSequenceIndex = s.currentSequenceIndex ∧
    (drawOutline t c s).lastTapTime = s.lastTapTime ∧
    (drawOutline t c s).progressWrites = s.progressWrites := ⟨rfl, rfl, rfl⟩

@[simp] theorem resizeCanvas_gesture (w h : ℚ) (s : State) :
    (resizeCanvas w h s).currentSequenceIndex = s.currentSequenceIndex ∧
    (resizeCanvas w h s).lastTapTime = s.lastTapTime ∧
    (resizeCanvas w h s).progressWrites = s.progressWrites := by
  cases h : s.currentTargetToTrace
  · simp [resizeCanvas, h]
  · simp only [resizeCanvas, h]; split_ifs <;> simp

@[simp] theorem startDrawing_gesture (x y : ℚ) (s : State) :
    (startDrawing x y s).currentSequenceIndex = s.currentSequenceIndex ∧
    (startDrawing x y s).lastTapTime = s.lastTapTime ∧
    (startDrawing x y s).progressWrites = s.progressWrites := by
  refine ⟨?_, ?_, ?_⟩ <;> unfold startDrawing <;> (repeat' split) <;> simp

@[simp] theorem draw_gesture (x y : ℚ) (s : State) :
    (draw x y s).currentSequenceIndex = s.currentSequenceIndex ∧
    (draw x y s).lastTapTime = s.lastTapTime ∧
    (draw x y s).progressWrites = s.progressWrites := by
  refine ⟨?_, ?_, ?_⟩ <;> unfold draw <;> (repeat' split) <;> simp

@[simp] theorem stopDrawing_gesture (s : State) :
    (stopDrawing s).currentSequenceIndex = s.currentSequenceIndex ∧
    (stopDrawing s).lastTapTime = s.lastTapTime ∧
    (stopDrawing s).progressWrites = s.progressWrites := by
  cases h : s.currentTargetToTrace <;> simp [stopDrawing, h] <;> split_ifs <;> simp

@[simp] theorem startNewTracingTarget_gesture (s : State) :
    (startNewTracingTarget s).currentSequenceIndex = s.currentSequenceIndex ∧
    (startNewTracingTarget s).lastTapTime = s.lastTapTime ∧
    (startNewTracingTarget s).progressWrites = s.progressWrites := by
  refine ⟨?_, ?_, ?_⟩ <;> unfold startNewTracingTarget <;> (repeat' split) <;> simp

@[simp] theorem setLessonMode_gesture (m : String) (s : State) :
    (setLessonMode m s).currentSequenceIndex = s.currentSequenceIndex ∧
    (setLessonMode m s).lastTapTime = s.lastTapTime ∧
    (setLessonMode m s).progressWrites = s.progressWrites := ⟨rfl, rfl, rfl⟩

@[simp] theorem setLocked_gesture (b : Bool) (s : State) :
    (setLocked b s).currentSequenceIndex = s.currentSequenceIndex ∧
    (setLocked b s).lastTapTime = s.lastTapTime ∧
    (setLocked b s).progressWrites = s.progressWrites := ⟨rfl, rfl, rfl⟩

@[simp] theorem setParentModeActive_gesture (b : Bool) (s : State) :
    (setParentModeActive b s).currentSequenceIndex = s.currentSequenceIndex ∧
    (setParentModeActive b s).lastTapTime = s.lastTapTime ∧
    (setParentModeActive b s).progressWrites = s.progressWrites := ⟨rfl, rfl, rfl⟩

@[simp] theorem setHasInteracted_gesture (b : Bool) (s : State) :
    (setHasInteracted b s).currentSequenceIndex = s.currentSequenceIndex ∧
    (setHasInteracted b s).lastTapTime = s.lastTapTime ∧
    (setHasInteracted b s).progressWrites = s.progressWrites := ⟨rfl, rfl, rfl⟩

@[simp] theorem resetAppForLock_gesture (s : State) :
    (resetAppForLock s).currentSequenceIndex = s.currentSequenceIndex ∧
    (resetAppForLock s).lastTapTime = s.lastTapTime ∧
    (resetAppForLock s).progressWrites = s.progressWrites := ⟨rfl, rfl, rfl⟩

@[simp] theorem startParentInstructionTimer_gesture (s : State) :
    (startParentInstructionTimer s).currentSequenceIndex = s.currentSequenceIndex ∧
    (startParentInstructionTimer s).lastTapTime = s.lastTapTime ∧
    (startParentInstructionTimer s).progressWrites = s.progressWrites := ⟨rfl, rfl, rfl⟩

@[simp] theorem stopParentInstructionTimer_gesture (s : State) :
    (stopParentInstructionTimer s).currentSequenceIndex = s.currentSequenceIndex ∧
    (stopParentInstructionTimer s).lastTapTime = s.lastTapTime ∧
    (stopParentInstructionTimer s).progressWrites = s.progressWrites := ⟨rfl, rfl, rfl⟩

@[simp] theorem hideAllLessonPanels_gesture (s : State) :
    (hideAllLessonPanels s).currentSequenceIndex = s.currentSequenceIndex ∧
    (hideAllLessonPanels s).lastTapTime = s.lastTapTime ∧
    (hideAllLessonPanels s).progressWrites = s.progressWrites := ⟨rfl, rfl, rfl⟩

@[simp] theorem showLessonPanel_gesture (p : Option Panel) (s : State) :
    (showLessonPanel p s).currentSequenceIndex = s.currentSequenceIndex ∧
    (showLessonPanel p s).lastTapTime = s.lastTapTime ∧
    (showLessonPanel p s).progressWrites = s.progressWrites := by
  cases p <;> exact ⟨rfl, rfl, rfl⟩

@[simp] theorem activateParentMode_gesture (s : State) :
    (activateParentMode s).currentSequenceIndex = s.currentSequenceIndex ∧
    (activateParentMode s).lastTapTime = s.lastTapTime ∧
    (activateParentMode s).progressWrites = s.progressWrites := ⟨rfl, rfl, rfl⟩

@[simp] theorem returnToParentMenuFromLesson_gesture (s : State) :
    (returnToParentMenuFromLesson s).currentSequenceIndex = s.currentSequenceIndex ∧
    (returnToParentMenuFromLesson s).lastTapTime = s.lastTapTime ∧
    (returnToParentMenuFromLesson s).progressWrites = s.progressWrites := ⟨rfl, rfl, rfl⟩

@[simp] theorem toddlerInteraction_gesture (x y : ℚ) (s : State) :
    (toddlerInteraction x y s).currentSequenceIndex = s.currentSequenceIndex ∧
    (toddlerInteraction x y s).lastTapTime = s.lastTapTime ∧
    (toddlerInteraction x y s).progressWrites = s.progressWrites := by
  refine ⟨?_, ?_, ?_⟩ <;> simp only [toddlerInteraction] <;> split_ifs <;> simp

@[simp] theorem handleTouchMove_gesture (e : TouchMoveInput) (s : State) :
    (handleTouchMove e s).currentSequenceIndex = s.currentSequenceIndex ∧
    (handleTouchMove e s).lastTapTime = s.lastTapTime ∧
    (handleTouchMove e s).progressWrites = s.progressWrites := by
  refine ⟨?_, ?_, ?_⟩ <;> simp only [handleTouchMove] <;> split_ifs <;> simp

@[simp] theorem handleTouchEnd_gesture (s : State) :
    (handleTouchEnd s).currentSequenceIndex = s.currentSequenceIndex ∧
    (handleTouchEnd s).lastTapTime = s.lastTapTime ∧
    (handleTouchEnd s).progressWrites = s.progressWrites := by
  refine ⟨?_, ?_, ?_⟩ <;> simp only [handleTouchEnd] <;> split_ifs <;> simp

@[simp] theorem advanceTimeout_gesture (s : State) :
    (advanceTimeout s).currentSequenceIndex = s.currentSequenceIndex ∧
    (advanceTimeout s).lastTapTime = s.lastTapTime ∧
    (advanceTimeout s).progressWrites = s.progressWrites := by
  refine ⟨?_, ?_, ?_⟩ <;> unfold advanceTimeout <;> (repeat' split) <;> simp

@[simp] theorem initialMessageTimeout_gesture (s : State) :
    (initialMessageTimeout s).currentSequenceIndex = s.currentSequenceIndex ∧
    (initialMessageTimeout s).lastTapTime = s.lastTapTime ∧
    (initialMessageTimeout s).progressWrites = s.progressWrites := by
  refine ⟨?_, ?_, ?_⟩ <;> simp only [initialMessageTimeout] <;> split_ifs <;> simp

/-! ## What `handleTouchStart` does -/

@[simp] theorem setCurrentSequenceIndex_fields (v : Nat) (s : State) :
    (setCurrentSequenceIndex v s).currentSequenceIndex = v ∧
    (setCurrentSequenceIndex v s).progressWrites = v :: s.progressWrites ∧
    (setCurrentSequenceIndex v s).lastTapTime = s.lastTapTime ∧
    (setCurrentSequenceIndex v s).app = s.app :=
  ⟨rfl, rfl, rfl, rfl⟩

theorem deactivateParentMode_gesture (s : State) :
    (deactivateParentMode s).currentSequenceIndex = 0 ∧
    (deactivateParentMode s).lastTapTime = 0 ∧
    (deactivateParentMode s).progressWrites = 0 :: s.progressWrites :=
  ⟨rfl, rfl, rfl⟩

theorem evaluatesGesture_false (event : TouchStartInput) (s : State)
    (h : evaluatesGesture event s = false) :
    s.app.isLocked = false ∨ s.app.isParentModeActive = true ∨
      targetIsButton event = true := by
  unfold evaluatesGesture at h
  cases hl : s.app.isLocked <;> cases hp : s.app.isParentModeActive <;>
    cases hb : targetIsButton event <;> simp_all

theorem evaluatesGesture_true (event : TouchStartInput) (s : State)
    (h : evaluatesGesture event s = true) :
    s.app.isLocked = true ∧ s.app.isParentModeActive = false ∧
      targetIsButton event = false := by
  unfold evaluatesGesture at h
  cases hl : s.app.isLocked <;> cases hp : s.app.isParentModeActive <;>
    cases hb : targetIsButton event <;> simp_all

theorem parentModeSequence_lookup (c : Corner) (i : Nat)
    (h : some c = parentModeSequence[i]?) : i < parentModeSequence.length := by
  by_contra hlt
  rw [List.getElem?_eq_none (by omega)] at h
  exact absurd h (by simp)

/-- A corner tap that the gesture block evaluates ends at the first assignment it
reaches, with `TypeError` and the state unchanged. -/
theorem parentModeActivationLogic_corner (c : Corner) (currentTime : Int) (s : State)
    (hp : s.app.isParentModeActive = false) :
    parentModeActivationLogic (some c) currentTime false s =
      Completion.abrupt (JsError.typeError "events.js"
        (if currentTime - s.lastTapTime > tapTimeout then 152
         else if some c = parentModeSequence[s.currentSequenceIndex]? then 156
         else 162) "currentSequenceIndex") s := by
  by_cases ht : currentTime - s.lastTapTime > tapTimeout
  · simp [parentModeActivationLogic, hp, assignImportedBinding, Completion.andThen, ht]
  · by_cases hm : some c = parentModeSequence[s.currentSequenceIndex]?
    · have hlt := parentModeSequence_lookup c _ hm
      simp [parentModeActivationLogic, hp, assignImportedBinding, Completion.andThen, ht, hm,
        hlt]
    · simp [parentModeActivationLogic, hp, assignImportedBinding, Completion.andThen, ht, hm]

theorem parentModeActivationLogic_noCorner (currentTime : Int) (s : State)
    (hp : s.app.isParentModeActive = false) :
    parentModeActivationLogic none currentTime false s =
      Completion.abrupt (JsError.typeError "events.js" 166 "currentSequenceIndex") s := by
  simp [parentModeActivationLogic, hp, assignImportedBinding]

theorem parentModeActivationLogic_skip (tapped : Option Corner) (currentTime : Int)
    (isButton : Bool) (s : State)
    (h : s.app.isParentModeActive = true ∨ isButton = true) :
    parentModeActivationLogic tapped currentTime isButton s = Completion.normal s := by
  rcases h with h | h <;> simp [parentModeActivationLogic, h]

theorem handleTouchStart_unlocked (event : TouchStartInput) (s : State)
    (hl : s.app.isLocked = false) : handleTouchStart event s = s := by
  simp [handleTouchStart, hl]

/-- A tap that the gesture logic evaluates: the handler ends at the first assignment of
the gesture block, with `TypeError`; only `isTouching` has been set. -/
theorem handleTouchStart_evaluated (event : TouchStartInput) (s : State)
    (he : evaluatesGesture event s = true) :
    handleTouchStart event s =
      raise (JsError.typeError "events.js" (firstAssignmentLine event s)
          "currentSequenceIndex")
        { s with app := { s.app with isTouching := true } } := by
  obtain ⟨hl, hp, hb⟩ := evaluatesGesture_true event s he
  have hb2 : decide (event.targetTagName = "BUTTON") = false := hb
  simp only [handleTouchStart, hl, if_true, hb2, firstAssignmentLine, tappedCorner]
  cases hc : getCorner event.innerWidth event.innerHeight event.clientX event.clientY with
  | none =>
    rw [parentModeActivationLogic_noCorner _ _ (by exact hp)]
    rfl
  | some c =>
    rw [parentModeActivationLogic_corner c _ _ (by exact hp)]
    rfl

/-- A tap that the gesture logic does not evaluate, on a locked screen: the gesture
block does nothing and the last block of the handler runs. -/
theorem handleTouchStart_skipped (event : TouchStartInput) (s : State)
    (hl : s.app.isLocked = true)
    (h : s.app.isParentModeActive = true ∨ targetIsButton event = true) :
    handleTouchStart event s =
      toddlerInteraction event.clientX event.clientY
        { s with app := { s.app with isTouching := true } } := by
  have h2 : s.app.isParentModeActive = true ∨
      decide (event.targetTagName = "BUTTON") = true := h
  simp only [handleTouchStart, hl, if_true]
  rw [parentModeActivationLogic_skip _ _ _ _ (by exact h2)]
  rfl

theorem toddlerInteraction_app (x y : ℚ) (s : State) :
    (toddlerInteraction x y s).app =
      if s.app.isParentModeActive then s.app else { s.app with hasInteracted := true } := by
  unfold toddlerInteraction startDrawing generateTapFeedback changeBackgroundGradient
    setHasInteracted raise
  cases h1 : s.app.isParentModeActive <;> cases h2 : s.app.isTracingModeActive <;>
    cases h3 : s.app.isLocked <;> simp [h1, h2, h3]

theorem toddlerInteraction_tracing (x y : ℚ) (s : State) :
    (toddlerInteraction x y s).currentTargetToTrace = s.currentTargetToTrace ∧
    (toddlerInteraction x y s).currentSequenceIndexTracing = s.currentSequenceIndexTracing ∧
    (toddlerInteraction x y s).pendingAdvances = s.pendingAdvances := by
  refine ⟨?_, ?_, ?_⟩ <;>
    (simp only [toddlerInteraction, startDrawing, generateTapFeedback,
       changeBackgroundGradient, setHasInteracted, raise]
     split_ifs <;> rfl)

/-- No call of `handleTouchStart` changes progress, `lastTapTime` or the parent-mode flag,
and none assigns progress. -/
theorem handleTouchStart_gesture (event : TouchStartInput) (s : State) :
    (handleTouchStart event s).currentSequenceIndex = s.currentSequenceIndex ∧
    (handleTouchStart event s).lastTapTime = s.lastTapTime ∧
    (handleTouchStart event s).progressWrites = s.progressWrites ∧
    (handleTouchStart event s).app.isParentModeActive = s.app.isParentModeActive := by
  cases he : evaluatesGesture event s
  · rcases evaluatesGesture_false event s he with hl | h
    · rw [handleTouchStart_unlocked event s hl]
      exact ⟨rfl, rfl, rfl, rfl⟩
    · cases hl : s.app.isLocked
      · rw [handleTouchStart_unlocked event s hl]
        exact ⟨rfl, rfl, rfl, rfl⟩
      · rw [handleTouchStart_skipped event s hl h]
        refine ⟨by simp, by simp, by simp, ?_⟩
        rw [toddlerInteraction_app]
        split_ifs <;> rfl
  · rw [handleTouchStart_evaluated event s he]
    exact ⟨rfl, rfl, rfl, rfl⟩

theorem handleTouchStart_skip (s : State) (event : TouchStartInput)
    (_h : s.app.isLocked = false ∨ s.app.isParentModeActive = true ∨
      targetIsButton event = true) :
    (handleTouchStart event s).currentSequenceIndex = s.currentSequenceIndex ∧
    (handleTouchStart event s).lastTapTime = s.lastTapTime ∧
    (handleTouchStart event s).progressWrites = s.progressWrites ∧
    (handleTouchStart event s).app.isParentModeActive = s.app.isParentModeActive :=
  handleTouchStart_gesture event s

/-- No call of `handleTouchStart` changes the lock, the tracing flag, the lesson, the
tracing target, the tracing cursor or the number of pending advances. -/
theorem handleTouchStart_tracing (event : TouchStartInput) (s : State) :
    (handleTouchStart event s).app.isLocked = s.app.isLocked ∧
    (handleTouchStart event s).app.isTracingModeActive = s.app.isTracingModeActive ∧
    (handleTouchStart event s).app.currentLessonMode = s.app.currentLessonMode ∧
    (handleTouchStart event s).currentTargetToTrace = s.currentTargetToTrace ∧
    (handleTouchStart event s).currentSequenceIndexTracing = s.currentSequenceIndexTracing ∧
    (handleTouchStart event s).pendingAdvances = s.pendingAdvances := by
  cases he : evaluatesGesture event s
  · cases hl : s.app.isLocked
    · rw [handleTouchStart_unlocked event s hl]
      exact ⟨hl, rfl, rfl, rfl, rfl, rfl⟩
    · have h : s.app.isParentModeActive = true ∨ targetIsButton event = true := by
        rcases evaluatesGesture_false event s he with h | h
        · rw [hl] at h; cases h
        · exact h
      rw [handleTouchStart_skipped event s hl h]
      obtain ⟨b1, b2, b3⟩ := toddlerInteraction_tracing event.clientX event.clientY
        { s with app := { s.app with isTouching := true } }
      refine ⟨?_, ?_, ?_, b1, b2, b3⟩
      · rw [toddlerInteraction_app]; split_ifs <;> exact hl
      · rw [toddlerInteraction_app]; split_ifs <;> rfl
      · rw [toddlerInteraction_app]; split_ifs <;> rfl
  · rw [handleTouchStart_evaluated event s he]
    exact ⟨rfl, rfl, rfl, rfl, rfl, rfl⟩

/-- No call of `handleTouchStart` activates parent mode. -/
theorem handleTouchStart_never_activates (event : TouchStartInput) (s : State) :
    activatesParentMode event s = false := by
  unfold activatesParentMode
  rw [(handleTouchStart_gesture event s).2.2.2]
  cases s.app.isParentModeActive <;> rfl

/-! ## The concrete inputs, evaluated -/

theorem div_ne_button : ¬ ("DIV" = "BUTTON") := by decide

theorem corner_ne :
    ¬ (Corner.topLeft = Corner.topRight) ∧
    ¬ (Corner.topLeft = Corner.bottomRight) ∧
    ¬ (Corner.topLeft = Corner.bottomLeft) ∧
    ¬ (Corner.topRight = Corner.topLeft) ∧
    ¬ (Corner.topRight = Corner.bottomRight) ∧
    ¬ (Corner.topRight = Corner.bottomLeft) ∧
    ¬ (Corner.bottomRight = Corner.topLeft) ∧
    ¬ (Corner.bottomRight = Corner.topRight) ∧
    ¬ (Corner.bottomRight = Corner.bottomLeft) ∧
    ¬ (Corner.bottomLeft = Corner.topLeft) ∧
    ¬ (Corner.bottomLeft = Corner.topRight) ∧
    ¬ (Corner.bottomLeft = Corner.bottomRight) := by
  decide

theorem tappedCorner_examples (now : Int) :
    tappedCorner (tapTopLeft now) = some Corner.topLeft ∧
    tappedCorner (tapTopRight now) = some Corner.topRight ∧
    tappedCorner (tapBottomRight now) = some Corner.bottomRight ∧
    tappedCorner (tapBottomLeft now) = some Corner.bottomLeft ∧
    tappedCorner (tapCentre now) = none := by
  refine ⟨?_, ?_, ?_, ?_, ?_⟩ <;>
    norm_num [tappedCorner, tapTopLeft, tapTopRight, tapBottomRight, tapBottomLeft, tapCentre,
      tapAt, getCorner, cornerThreshold]

theorem targetIsButton_examples (now : Int) :
    targetIsButton (tapTopLeft now) = false ∧
    targetIsButton (tapTopRight now) = false ∧
    targetIsButton (tapBottomRight now) = false ∧
    targetIsButton (tapBottomLeft now) = false ∧
    targetIsButton (tapCentre now) = false ∧
    targetIsButton (buttonTapTopLeft now) = true := by
  refine ⟨?_, ?_, ?_, ?_, ?_, ?_⟩ <;> rfl

theorem onload_fields :
    (onload 1000 800).app.isLocked = true ∧
    (onload 1000 800).app.isParentModeActive = false ∧
    (onload 1000 800).currentSequenceIndex = 0 ∧
    (onload 1000 800).lastTapTime = 0 :=
  ⟨rfl, rfl, rfl, rfl⟩

theorem run_append (w h : ℚ) (ops more : List Op) :
    run w h (ops ++ more) = more.foldl step (run w h ops) := by
  simp [run, List.foldl_append]

theorem tapAll_snoc (events : List TouchStartInput) (event : TouchStartInput) (s : State) :
    tapAll (events ++ [event]) s = handleTouchStart event (tapAll events s) := by
  simp [tapAll, List.foldl_append]

theorem run_openParentMenu : run 1000 800 openParentMenu = afterCornerTaps := by
  norm_num [run, step, openParentMenu, afterCornerTaps, uncaughtAfterCornerTaps,
    handleTouchStart, parentModeActivationLogic, toddlerInteraction,
    assignImportedBinding, Completion.andThen, Completion.finish, raise,
    tapTopLeft, tapTopRight, tapBottomRight, tapBottomLeft, tapAt,
    getCorner, cornerThreshold, tapTimeout, parentModeSequence,
    setCurrentSequenceIndex, activateParentMode, onload, lockScreen,
    deactivateParentMode, resizeCanvas, moduleState, setParentModeActive, setLocked,
    setHasInteracted, resetAppForLock, stopParentInstructionTimer, startParentInstructionTimer,
    hideAllLessonPanels, showLessonPanel, clearCanvas, generateTapFeedback,
    changeBackgroundGradient, startDrawing, div_ne_button, corner_ne]

/-! ## C1: the corner zones -/

/-- C1: in a viewport of positive width and height, `getCorner` returns each corner
exactly on its 20% by 20% zone (strict inequalities), returns `null` exactly when the
point is in none of the four zones, and so returns `null` on the central region
`0.2*w ≤ x ≤ 0.8*w`, `0.2*h ≤ y ≤ 0.8*h`. -/
theorem getCorner_classification (w h x y : ℚ) (hw : 0 < w) (hh : 0 < h) :
    (getCorner w h x y = some Corner.topLeft ↔ x < 0.2 * w ∧ y < 0.2 * h) ∧
    (getCorner w h x y = some Corner.topRight ↔ x > 0.8 * w ∧ y < 0.2 * h) ∧
    (getCorner w h x y = some Corner.bottomRight ↔ x > 0.8 * w ∧ y > 0.8 * h) ∧
    (getCorner w h x y = some Corner.bottomLeft ↔ x < 0.2 * w ∧ y > 0.8 * h) ∧
    (getCorner w h x y = none ↔
      ¬ (x < 0.2 * w ∧ y < 0.2 * h) ∧ ¬ (x > 0.8 * w ∧ y < 0.2 * h) ∧
      ¬ (x > 0.8 * w ∧ y > 0.8 * h) ∧ ¬ (x < 0.2 * w ∧ y > 0.8 * h)) ∧
    (0.2 * w ≤ x → x ≤ 0.8 * w → 0.2 * h ≤ y → y ≤ 0.8 * h →
      getCorner w h x y = none) := by
  have e1 : w * cornerThreshold = 0.2 * w := by unfold cornerThreshold; ring
  have e2 : h * cornerThreshold = 0.2 * h := by unfold cornerThreshold; ring
  have e3 : w * (1 - cornerThreshold) = 0.8 * w := by unfold cornerThreshold; ring
  have e4 : h * (1 - cornerThreshold) = 0.8 * h := by unfold cornerThreshold; ring
  have hw2 : 0.2 * w < 0.8 * w := by linarith
  have hh2 : 0.2 * h < 0.8 * h := by linarith
  unfold getCorner
  rw [e1, e2, e3, e4]
  refine ⟨?_, ?_, ?_, ?_, ?_, ?_⟩
  all_goals
    split_ifs <;> simp_all <;> intros <;> linarith

/-- Witness of C1: the point (10, 10) of a 1000 by 800 viewport is in the top-left
zone. -/
theorem getCorner_classification_witness :
    (0 : ℚ) < 1000 ∧ (0 : ℚ) < 800 ∧ getCorner 1000 800 10 10 = some Corner.topLeft :=
  ⟨by norm_num, by norm_num,
    (getCorner_classification 1000 800 10 10 (by norm_num) (by norm_num)).1.mpr
      ⟨by norm_num, by norm_num⟩⟩

/-! ## The gesture variables after page load -/

theorem GestureAtRest_of_gesture (s t : State) (h : GestureAtRest s)
    (h1 : t.currentSequenceIndex = s.currentSequenceIndex)
    (h2 : t.lastTapTime = s.lastTapTime)
    (h3 : t.progressWrites = s.progressWrites) : GestureAtRest t := by
  unfold GestureAtRest at *
  rw [h1, h2, h3]
  exact h

theorem GestureAtRest_deactivateParentMode (s : State) (h : GestureAtRest s) :
    GestureAtRest (deactivateParentMode s) := by
  obtain ⟨-, -, -, h4⟩ := h
  obtain ⟨a, t, w⟩ := deactivateParentMode_gesture s
  refine ⟨a, t, by rw [w]; rfl, ?_⟩
  intro v hv
  rw [w, List.mem_cons] at hv
  rcases hv with rfl | hv
  · rfl
  · exact h4 v hv

theorem GestureAtRest_step (s : State) (op : Op) (h : GestureAtRest s) :
    GestureAtRest (step s op) := by
  cases op with
  | touchStart event =>
    exact GestureAtRest_of_gesture s _ h (handleTouchStart_gesture event s).1
      (handleTouchStart_gesture event s).2.1 (handleTouchStart_gesture event s).2.2.1
  | touchMove event =>
    exact GestureAtRest_of_gesture s _ h (by simp [step]) (by simp [step]) (by simp [step])
  | touchEnd =>
    exact GestureAtRest_of_gesture s _ h (by simp [step]) (by simp [step]) (by simp [step])
  | keyDown event =>
    simp only [step, handleKeyDown]
    split_ifs
    · exact GestureAtRest_deactivateParentMode _
        (GestureAtRest_of_gesture s _ h rfl rfl rfl)
    · exact GestureAtRest_of_gesture s _ h (by simp) (by simp) (by simp)
    · exact h
    · exact h
  | click b =>
    cases b <;> exact GestureAtRest_of_gesture s _ h rfl rfl rfl
  | resize w h' =>
    exact GestureAtRest_of_gesture s _ h (by simp [step]) (by simp [step]) (by simp [step])
  | advanceTimeout =>
    exact GestureAtRest_of_gesture s _ h (by simp [step]) (by simp [step]) (by simp [step])
  | initialMessageTimeout =>
    exact GestureAtRest_of_gesture s _ h (by simp [step]) (by simp [step]) (by simp [step])

theorem GestureAtRest_onload (w h : ℚ) : GestureAtRest (onload w h) := by
  refine ⟨rfl, rfl, ?_, ?_⟩
  · simp [onload, lockScreen, deactivateParentMode_gesture]
  · simp [onload, lockScreen, deactivateParentMode_gesture, moduleState]

theorem GestureAtRest_foldl (ops : List Op) (s : State) (h : GestureAtRest s) :
    GestureAtRest (ops.foldl step s) := by
  induction ops generalizing s with
  | nil => exact h
  | cons op rest ih => exact ih (step s op) (GestureAtRest_step s op h)

theorem GestureAtRest_run (w h : ℚ) (ops : List Op) : GestureAtRest (run w h ops) :=
  GestureAtRest_foldl ops _ (GestureAtRest_onload w h)

theorem tapAll_gesture (events : List TouchStartInput) (s : State) :
    (tapAll events s).currentSequenceIndex = s.currentSequenceIndex ∧
    (tapAll events s).lastTapTime = s.lastTapTime ∧
    (tapAll events s).progressWrites = s.progressWrites ∧
    (tapAll events s).app.isParentModeActive = s.app.isParentModeActive ∧
    (tapAll events s).app.isLocked = s.app.isLocked := by
  induction events using List.reverseRecOn with
  | nil => exact ⟨rfl, rfl, rfl, rfl, rfl⟩
  | append_singleton l a ih =>
    obtain ⟨i1, i2, i3, i4, i5⟩ := ih
    obtain ⟨g1, g2, g3, g4⟩ := handleTouchStart_gesture a (tapAll l s)
    rw [tapAll_snoc]
    exact ⟨g1.trans i1, g2.trans i2, g3.trans i3, g4.trans i4,
      (handleTouchStart_tracing a (tapAll l s)).1.trans i5⟩

theorem resetAfterFour_zeros (l : List Nat) (h : ∀ v ∈ l, v = 0) :
    resetAfterFour l = true := by
  induction l with
  | nil => rfl
  | cons a rest ih =>
    cases rest with
    | nil => rfl
    | cons b rest2 =>
      have hb : b = 0 := h b (by simp)
      have ha : a = 0 := h a (by simp)
      have ih2 := ih (fun v hv => h v (List.mem_cons_of_mem _ hv))
      subst ha hb
      simp [resetAfterFour, ih2]

/-! ## C2: the full sequence -/

theorem tapAll_openParentMenu :
    tapAll [tapTopLeft 5000, tapTopRight 5500, tapBottomRight 6000, tapBottomLeft 6500]
      (onload 1000 800) = afterCornerTaps :=
  run_openParentMenu

/-- The exception of a call that the gesture logic evaluates. -/
theorem handleTouchStart_uncaught (event : TouchStartInput) (s : State)
    (he : evaluatesGesture event s = true) :
    (handleTouchStart event s).uncaught =
      s.uncaught ++ [JsError.typeError "events.js" (firstAssignmentLine event s)
        "currentSequenceIndex"] := by
  rw [handleTouchStart_evaluated event s he]
  rfl

/-- C2: the four taps of the corner sequence do not activate parent mode. A tap that the
gesture logic evaluates (locked, parent mode off, non-button target) ends at the first
assignment to `currentSequenceIndex` that it reaches, which raises `TypeError` because
events.js imports the variable: only `isTouching` has been set, and the last block of the
handler does not run. No call of `handleTouchStart` activates parent mode. After page
load in a 1000 by 800 window (locked, parent mode off, progress 0) and the taps
top-left, top-right, bottom-right, bottom-left on non-button targets, 500 ms apart,
parent mode is off, no panel is shown, progress and `lastTapTime` are 0, and the
exceptions of the four taps are uncaught. -/
theorem four_corner_taps_raise :
    (∀ (event : TouchStartInput) (s : State), evaluatesGesture event s = true →
      handleTouchStart event s =
        raise (JsError.typeError "events.js" (firstAssignmentLine event s)
            "currentSequenceIndex")
          { s with app := { s.app with isTouching := true } }) ∧
    (∀ (event : TouchStartInput) (s : State), activatesParentMode event s = false) ∧
    (onload 1000 800).app.isLocked = true ∧
    (onload 1000 800).app.isParentModeActive = false ∧
    (onload 1000 800).currentSequenceIndex = 0 ∧
    tappedCorner (tapTopLeft 5000) = some Corner.topLeft ∧
    tappedCorner (tapTopRight 5500) = some Corner.topRight ∧
    tappedCorner (tapBottomRight 6000) = some Corner.bottomRight ∧
    tappedCorner (tapBottomLeft 6500) = some Corner.bottomLeft ∧
    targetIsButton (tapTopLeft 5000) = false ∧
    targetIsButton (tapTopRight 5500) = false ∧
    targetIsButton (tapBottomRight 6000) = false ∧
    targetIsButton (tapBottomLeft 6500) = false ∧
    activatesParentMode (tapBottomLeft 6500)
      (tapAll [tapTopLeft 5000, tapTopRight 5500, tapBottomRight 6000] (onload 1000 800))
      = false ∧
    (tapAll [tapTopLeft 5000, tapTopRight 5500, tapBottomRight 6000, tapBottomLeft 6500]
      (onload 1000 800)).app.isParentModeActive = false ∧
    (tapAll [tapTopLeft 5000, tapTopRight 5500, tapBottomRight 6000, tapBottomLeft 6500]
      (onload 1000 800)).panel = none ∧
    (tapAll [tapTopLeft 5000, tapTopRight 5500, tapBottomRight 6000, tapBottomLeft 6500]
      (onload 1000 800)).currentSequenceIndex = 0 ∧
    (tapAll [tapTopLeft 5000, tapTopRight 5500, tapBottomRight 6000, tapBottomLeft 6500]
      (onload 1000 800)).lastTapTime = 0 ∧
    (tapAll [tapTopLeft 5000, tapTopRight 5500, tapBottomRight 6000, tapBottomLeft 6500]
      (onload 1000 800)).uncaught =
        [JsError.referenceError "parentMode.js" 214 "getRandomElement",
         JsError.typeError "events.js" 152 "currentSequenceIndex",
         JsError.typeError "events.js" 152 "currentSequenceIndex",
         JsError.typeError "events.js" 152 "currentSequenceIndex",
         JsError.typeError "events.js" 152 "currentSequenceIndex"] := by
  refine ⟨handleTouchStart_evaluated, handleTouchStart_never_activates, rfl, rfl, rfl,
    (tappedCorner_examples 5000).1, (tappedCorner_examples 5500).2.1,
    (tappedCorner_examples 6000).2.2.1, (tappedCorner_examples 6500).2.2.2.1,
    rfl, rfl, rfl, rfl, handleTouchStart_never_activates _ _, ?_, ?_, ?_, ?_, ?_⟩ <;>
  rw [tapAll_openParentMenu] <;> rfl

/-! ## C3: a tap after the timeout -/

theorem firstAssignmentLine_corner (event : TouchStartInput) (s : State) (c : Corner)
    (hc : tappedCorner event = some c) :
    firstAssignmentLine event s =
      (if event.now - s.lastTapTime > 2000 then 152
       else if parentModeSequence[s.currentSequenceIndex]? = some c then 156
       else 162) := by
  unfold firstAssignmentLine tapTimeout
  rw [hc]
  simp only [eq_comm]

theorem evaluatesGesture_of (event : TouchStartInput) (s : State)
    (hl : s.app.isLocked = true) (hp : s.app.isParentModeActive = false)
    (hb : targetIsButton event = false) : evaluatesGesture event s = true := by
  simp [evaluatesGesture, hl, hp, hb]

/-- The exception of a corner tap that the gesture logic evaluates, by the branch of
the gesture block that the tap takes. -/
theorem handleTouchStart_uncaught_corner (s : State) (event : TouchStartInput) (c : Corner)
    (hl : s.app.isLocked = true) (hp : s.app.isParentModeActive = false)
    (hb : targetIsButton event = false) (hc : tappedCorner event = some c) :
    (event.now - s.lastTapTime > 2000 →
      (handleTouchStart event s).uncaught =
        s.uncaught ++ [JsError.typeError "events.js" 152 "currentSequenceIndex"]) ∧
    (event.now - s.lastTapTime ≤ 2000 →
      (handleTouchStart event s).uncaught =
        s.uncaught ++ [JsError.typeError "events.js"
          (if parentModeSequence[s.currentSequenceIndex]? = some c then 156 else 162)
          "currentSequenceIndex"]) := by
  have he := evaluatesGesture_of event s hl hp hb
  rw [handleTouchStart_uncaught event s he, firstAssignmentLine_corner event s c hc]
  constructor
  · intro ht
    rw [if_pos ht]
  · intro ht
    rw [if_neg (by omega)]

/-- C3, counterexample: after page load a top-left tap with the timestamp 2000 is a
corner tap 2000 ms after `lastTapTime`, and the handler does not go to the reset of line
152: it ends at the increment of line 156, in the comparison. Progress is 0 after the
tap, where the claim gives 1. -/
theorem timeout_boundary_no_reset :
    evaluatesGesture (tapTopLeft 2000) (onload 1000 800) = true ∧
    tappedCorner (tapTopLeft 2000) = some Corner.topLeft ∧
    (tapTopLeft 2000).now - (onload 1000 800).lastTapTime ≥ 2000 ∧
    (handleTouchStart (tapTopLeft 2000) (onload 1000 800)).uncaught =
      (onload 1000 800).uncaught ++
        [JsError.typeError "events.js" 156 "currentSequenceIndex"] ∧
    (handleTouchStart (tapTopLeft 2000) (onload 1000 800)).currentSequenceIndex = 0 ∧
    (handleTouchStart (tapTopLeft 2000) (onload 1000 800)).currentSequenceIndex ≠
      (if Corner.topLeft = Corner.topLeft then 1 else 0) := by
  have he : evaluatesGesture (tapTopLeft 2000) (onload 1000 800) = true := rfl
  have hc := (tappedCorner_examples 2000).1
  refine ⟨he, hc, by decide, ?_, ?_, ?_⟩
  · rw [handleTouchStart_uncaught _ _ he, firstAssignmentLine_corner _ _ _ hc]
    rfl
  · rw [(handleTouchStart_gesture _ _).1]; rfl
  · rw [(handleTouchStart_gesture _ _).1]; decide

/-- C3 (as amended): a corner tap that the gesture logic evaluates goes to the reset of
progress that precedes the comparison (line 152) exactly when its timestamp is more
than 2000 ms after `lastTapTime`; a tap at most 2000 ms after `lastTapTime`, 2000 ms
included, goes to the comparison with the expected corner without that reset (line 156
when the corner is the expected one, line 162 when it is not). -/
theorem timeout_reset_reached (s : State) (event : TouchStartInput) (c : Corner)
    (hl : s.app.isLocked = true) (hp : s.app.isParentModeActive = false)
    (hb : targetIsButton event = false) (hc : tappedCorner event = some c) :
    (event.now - s.lastTapTime > 2000 →
      (handleTouchStart event s).uncaught =
        s.uncaught ++ [JsError.typeError "events.js" 152 "currentSequenceIndex"]) ∧
    (event.now - s.lastTapTime ≤ 2000 →
      (handleTouchStart event s).uncaught =
        s.uncaught ++ [JsError.typeError "events.js"
          (if parentModeSequence[s.currentSequenceIndex]? = some c then 156 else 162)
          "currentSequenceIndex"]) :=
  handleTouchStart_uncaught_corner s event c hl hp hb hc

/-- Witness of C3 (as amended): after page load, a top-right tap with the timestamp 2001
goes to the reset of line 152, and one with the timestamp 2000 goes to the comparison
(line 162: top-right is not the expected corner). -/
theorem timeout_reset_reached_witness :
    (handleTouchStart (tapTopRight 2001) (onload 1000 800)).uncaught =
      (onload 1000 800).uncaught ++
        [JsError.typeError "events.js" 152 "currentSequenceIndex"] ∧
    (handleTouchStart (tapTopRight 2000) (onload 1000 800)).uncaught =
      (onload 1000 800).uncaught ++
        [JsError.typeError "events.js" 162 "currentSequenceIndex"] :=
  ⟨(timeout_reset_reached (onload 1000 800) (tapTopRight 2001) Corner.topRight rfl rfl
      (targetIsButton_examples 2001).2.1 (tappedCorner_examples 2001).2.1).1 (by decide),
    (timeout_reset_reached (onload 1000 800) (tapTopRight 2000) Corner.topRight rfl rfl
      (targetIsButton_examples 2000).2.1 (tappedCorner_examples 2000).2.1).2 (by decide)⟩

/-! ## C4: a wrong corner -/

/-- C4: in a state reached after page load, a corner tap that the gesture logic
evaluates within the timeout and whose corner is not the expected one leaves progress
at 0 and does not activate parent mode. The handler ends at the reset of line 162. -/
theorem wrong_corner_resets_progress (innerWidth innerHeight : ℚ) (ops : List Op)
    (event : TouchStartInput) (c : Corner)
    (hl : (run innerWidth innerHeight ops).app.isLocked = true)
    (hp : (run innerWidth innerHeight ops).app.isParentModeActive = false)
    (hb : targetIsButton event = false) (hc : tappedCorner event = some c)
    (ht : event.now - (run innerWidth innerHeight ops).lastTapTime ≤ 2000)
    (hne : parentModeSequence[(run innerWidth innerHeight ops).currentSequenceIndex]?
      ≠ some c) :
    (handleTouchStart event (run innerWidth innerHeight ops)).currentSequenceIndex = 0 ∧
    (handleTouchStart event (run innerWidth innerHeight ops)).app.isParentModeActive
      = false ∧
    activatesParentMode event (run innerWidth innerHeight ops) = false ∧
    (handleTouchStart event (run innerWidth innerHeight ops)).uncaught =
      (run innerWidth innerHeight ops).uncaught ++
        [JsError.typeError "events.js" 162 "currentSequenceIndex"] := by
  obtain ⟨g1, -, -, g4⟩ := handleTouchStart_gesture event (run innerWidth innerHeight ops)
  refine ⟨g1.trans (GestureAtRest_run innerWidth innerHeight ops).1, g4.trans hp,
    handleTouchStart_never_activates _ _, ?_⟩
  rw [((handleTouchStart_uncaught_corner (run innerWidth innerHeight ops) event c hl hp hb hc).2 ht),
    if_neg hne]

/-- Witness of C4: after page load, a top-right tap with the timestamp 1000, within the
timeout of `lastTapTime` 0, where top-left is expected. -/
theorem wrong_corner_resets_progress_witness :
    (handleTouchStart (tapTopRight 1000) (run 1000 800 [])).currentSequenceIndex = 0 ∧
    (handleTouchStart (tapTopRight 1000) (run 1000 800 [])).app.isParentModeActive
      = false ∧
    activatesParentMode (tapTopRight 1000) (run 1000 800 []) = false ∧
    (handleTouchStart (tapTopRight 1000) (run 1000 800 [])).uncaught =
      (run 1000 800 []).uncaught ++
        [JsError.typeError "events.js" 162 "currentSequenceIndex"] :=
  wrong_corner_resets_progress 1000 800 [] (tapTopRight 1000) Corner.topRight rfl rfl
    (targetIsButton_examples 1000).2.1 (tappedCorner_examples 1000).2.1
    (by decide) (by decide)

/-! ## C5: top-left, top-right, top-left -/

/-- C5, counterexample: after page load (locked, parent mode off, progress 0) and the
taps top-left, top-right, top-left on non-button targets, 500 ms apart, progress is 0
and not 1. -/
theorem topLeft_again_progress_zero :
    (onload 1000 800).app.isLocked = true ∧
    (onload 1000 800).app.isParentModeActive = false ∧
    (onload 1000 800).currentSequenceIndex = 0 ∧
    tappedCorner (tapTopLeft 5000) = some Corner.topLeft ∧
    tappedCorner (tapTopRight 5500) = some Corner.topRight ∧
    tappedCorner (tapTopLeft 6000) = some Corner.topLeft ∧
    targetIsButton (tapTopLeft 5000) = false ∧
    targetIsButton (tapTopRight 5500) = false ∧
    targetIsButton (tapTopLeft 6000) = false ∧
    (tapAll [tapTopLeft 5000, tapTopRight 5500, tapTopLeft 6000]
      (onload 1000 800)).currentSequenceIndex = 0 ∧
    (tapAll [tapTopLeft 5000, tapTopRight 5500, tapTopLeft 6000]
      (onload 1000 800)).currentSequenceIndex ≠ 1 := by
  have h : (tapAll [tapTopLeft 5000, tapTopRight 5500, tapTopLeft 6000]
      (onload 1000 800)).currentSequenceIndex = 0 := (tapAll_gesture _ _).1
  refine ⟨rfl, rfl, rfl, (tappedCorner_examples 5000).1, (tappedCorner_examples 5500).2.1,
    (tappedCorner_examples 6000).1, rfl, rfl, rfl, h, ?_⟩
  rw [h]
  decide

/-- C5 (as amended): from progress 0, after the three taps top-left, top-right,
top-left (and after any three taps), progress is 0: the third tap does not leave it
at 1. -/
theorem topLeft_topRight_topLeft_progress (s : State) (e1 e2 e3 : TouchStartInput)
    (h0 : s.currentSequenceIndex = 0) :
    (tapAll [e1, e2, e3] s).currentSequenceIndex = 0 :=
  (tapAll_gesture _ s).1.trans h0

/-- Witness of C5 (as amended): the three taps 500 ms apart, after page load. -/
theorem topLeft_topRight_topLeft_progress_witness :
    (tapAll [tapTopLeft 5000, tapTopRight 5500, tapTopLeft 6000]
      (onload 1000 800)).currentSequenceIndex = 0 :=
  topLeft_topRight_topLeft_progress (onload 1000 800) (tapTopLeft 5000) (tapTopRight 5500)
    (tapTopLeft 6000) rfl

/-! ## C6: the bound on progress -/

/-- C6: after page load and any sequence of events, in a window of any size, progress
is at most 3; it is the value of the last assignment to it; no assignment ever gave it
a value above 4; and every assignment of 4 was directly followed by an assignment of 0.
Progress is in fact 0, and 0 is the only value ever assigned to it. -/
theorem progress_bounded (innerWidth innerHeight : ℚ) (ops : List Op) :
    (run innerWidth innerHeight ops).currentSequenceIndex ≤ 3 ∧
    (run innerWidth innerHeight ops).progressWrites.head? =
      some (run innerWidth innerHeight ops).currentSequenceIndex ∧
    (∀ v ∈ (run innerWidth innerHeight ops).progressWrites, v ≤ 4) ∧
    resetAfterFour (run innerWidth innerHeight ops).progressWrites = true ∧
    (run innerWidth innerHeight ops).currentSequenceIndex = 0 ∧
    (∀ v ∈ (run innerWidth innerHeight ops).progressWrites, v = 0) := by
  obtain ⟨h1, -, h3, h4⟩ := GestureAtRest_run innerWidth innerHeight ops
  refine ⟨by omega, by rw [h3, h1], ?_, resetAfterFour_zeros _ h4, h1, h4⟩
  intro v hv
  have := h4 v hv
  omega

/-! ## C7: a tap in no corner -/

/-- C7: no call of `handleTouchStart` changes `lastTapTime`: the assignment of line 164
is never reached. After page load a top-left tap on a non-button target with the
timestamp 5000 is a corner tap that the gesture logic evaluates, and `lastTapTime` is 0
after it, not 5000. A tap in no corner leaves progress at 0 and `lastTapTime` as it
was, as the claim says. -/
theorem lastTapTime_never_set :
    (∀ (event : TouchStartInput) (s : State),
      (handleTouchStart event s).lastTapTime = s.lastTapTime) ∧
    evaluatesGesture (tapTopLeft 5000) (onload 1000 800) = true ∧
    tappedCorner (tapTopLeft 5000) = some Corner.topLeft ∧
    (handleTouchStart (tapTopLeft 5000) (onload 1000 800)).lastTapTime = 0 ∧
    (handleTouchStart (tapTopLeft 5000) (onload 1000 800)).lastTapTime ≠
      (tapTopLeft 5000).now ∧
    (handleTouchStart (tapTopLeft 5000) (onload 1000 800)).uncaught =
      (onload 1000 800).uncaught ++
        [JsError.typeError "events.js" 152 "currentSequenceIndex"] ∧
    evaluatesGesture (tapCentre 5000) (onload 1000 800) = true ∧
    tappedCorner (tapCentre 5000) = none ∧
    (handleTouchStart (tapCentre 5000) (onload 1000 800)).currentSequenceIndex = 0 ∧
    (handleTouchStart (tapCentre 5000) (onload 1000 800)).lastTapTime =
      (onload 1000 800).lastTapTime := by
  have e : (handleTouchStart (tapTopLeft 5000) (onload 1000 800)).lastTapTime = 0 :=
    (handleTouchStart_gesture _ _).2.1
  refine ⟨fun event s => (handleTouchStart_gesture event s).2.1, rfl,
    (tappedCorner_examples 5000).1, e, ?_, ?_, rfl, (tappedCorner_examples 5000).2.2.2.2,
    (handleTouchStart_gesture _ _).1, (handleTouchStart_gesture _ _).2.1⟩
  · rw [e]; decide
  · exact (handleTouchStart_uncaught_corner (onload 1000 800) (tapTopLeft 5000) Corner.topLeft
      rfl rfl rfl (tappedCorner_examples 5000).1).1 (by decide)

/-! ## C8: the calls that skip the gesture logic -/

/-- C8: a call of `handleTouchStart` with the screen unlocked, or parent mode already
active, or a BUTTON target leaves progress and `lastTapTime` unchanged, assigns progress
nothing, and does not activate parent mode, whatever corner the tap falls in. -/
theorem handleTouchStart_skips_gesture (s : State) (event : TouchStartInput)
    (h : s.app.isLocked = false ∨ s.app.isParentModeActive = true ∨
      targetIsButton event = true) :
    (handleTouchStart event s).currentSequenceIndex = s.currentSequenceIndex ∧
    (handleTouchStart event s).lastTapTime = s.lastTapTime ∧
    (handleTouchStart event s).progressWrites = s.progressWrites ∧
    (handleTouchStart event s).app.isParentModeActive = s.app.isParentModeActive ∧
    activatesParentMode event s = false := by
  obtain ⟨a, t, w, p⟩ := handleTouchStart_skip s event h
  refine ⟨a, t, w, p, ?_⟩
  unfold activatesParentMode
  rw [p]
  cases s.app.isParentModeActive <;> rfl

/-- Witness of C8: a tap on a BUTTON in the top-left corner, 500 ms after an evaluated
top-left tap. -/
theorem handleTouchStart_skips_gesture_witness :
    tappedCorner (buttonTapTopLeft 5500) = some Corner.topLeft ∧
    (handleTouchStart (buttonTapTopLeft 5500) stateAfterTopLeft).currentSequenceIndex =
      stateAfterTopLeft.currentSequenceIndex ∧
    (handleTouchStart (buttonTapTopLeft 5500) stateAfterTopLeft).lastTapTime =
      stateAfterTopLeft.lastTapTime ∧
    (handleTouchStart (buttonTapTopLeft 5500) stateAfterTopLeft).progressWrites =
      stateAfterTopLeft.progressWrites ∧
    (handleTouchStart (buttonTapTopLeft 5500) stateAfterTopLeft).app.isParentModeActive =
      stateAfterTopLeft.app.isParentModeActive ∧
    activatesParentMode (buttonTapTopLeft 5500) stateAfterTopLeft = false :=
  ⟨by norm_num [tappedCorner, buttonTapTopLeft, tapAt, getCorner, cornerThreshold],
    handleTouchStart_skips_gesture stateAfterTopLeft (buttonTapTopLeft 5500)
      (Or.inr (Or.inr (targetIsButton_examples 5500).2.2.2.2.2))⟩

/-! ## C9: a pause in the middle of the sequence -/

/-- C9: after page load and any sequence of events that leaves the screen locked and
parent mode off, four taps of which the third is a bottom-right tap on a non-button
target that comes more than 2000 ms after the second never activate parent mode, and
progress is 0 after the third and after the fourth tap. The third tap reaches the reset
of the pause (line 152) and ends there: the comparison with the expected corner is not
reached, and progress is 0 because no tap has changed it. -/
theorem pause_never_activates (innerWidth innerHeight : ℚ) (ops : List Op)
    (e1 e2 e3 e4 : TouchStartInput)
    (hl : (run innerWidth innerHeight ops).app.isLocked = true)
    (hp : (run innerWidth innerHeight ops).app.isParentModeActive = false)
    (hb : targetIsButton e3 = false)
    (hc : tappedCorner e3 = some Corner.bottomRight)
    (h2 : 0 ≤ e2.now) (hpause : e3.now - e2.now > tapTimeout) :
    activatesParentMode e1 (run innerWidth innerHeight ops) = false ∧
    activatesParentMode e2 (tapAll [e1] (run innerWidth innerHeight ops)) = false ∧
    activatesParentMode e3 (tapAll [e1, e2] (run innerWidth innerHeight ops)) = false ∧
    activatesParentMode e4 (tapAll [e1, e2, e3] (run innerWidth innerHeight ops)) = false ∧
    (tapAll [e1, e2, e3, e4] (run innerWidth innerHeight ops)).app.isParentModeActive
      = false ∧
    (tapAll [e1, e2, e3] (run innerWidth innerHeight ops)).currentSequenceIndex = 0 ∧
    (tapAll [e1, e2, e3, e4] (run innerWidth innerHeight ops)).currentSequenceIndex = 0 ∧
    (tapAll [e1, e2, e3] (run innerWidth innerHeight ops)).uncaught =
      (tapAll [e1, e2] (run innerWidth innerHeight ops)).uncaught ++
        [JsError.typeError "events.js" 152 "currentSequenceIndex"] := by
  obtain ⟨r1, r2, -, -⟩ := GestureAtRest_run innerWidth innerHeight ops
  obtain ⟨-, t2, -, t4, t5⟩ := tapAll_gesture [e1, e2] (run innerWidth innerHeight ops)
  refine ⟨handleTouchStart_never_activates _ _, handleTouchStart_never_activates _ _,
    handleTouchStart_never_activates _ _, handleTouchStart_never_activates _ _,
    (tapAll_gesture _ _).2.2.2.1.trans hp, (tapAll_gesture _ _).1.trans r1,
    (tapAll_gesture _ _).1.trans r1, ?_⟩
  have h := (handleTouchStart_uncaught_corner (tapAll [e1, e2] (run innerWidth innerHeight ops))
    e3 Corner.bottomRight (t5.trans hl) (t4.trans hp) hb hc).1
  apply h
  rw [t2, r2]
  unfold tapTimeout at hpause
  omega

/-- Witness of C9: after page load, top-left at 5000, top-right at 5500, then after a
pause of 3000 ms bottom-right at 8500 and bottom-left at 9000. -/
theorem pause_never_activates_witness :
    activatesParentMode (tapTopLeft 5000) (run 1000 800 []) = false ∧
    activatesParentMode (tapTopRight 5500)
      (tapAll [tapTopLeft 5000] (run 1000 800 [])) = false ∧
    activatesParentMode (tapBottomRight 8500)
      (tapAll [tapTopLeft 5000, tapTopRight 5500] (run 1000 800 [])) = false ∧
    activatesParentMode (tapBottomLeft 9000)
      (tapAll [tapTopLeft 5000, tapTopRight 5500, tapBottomRight 8500]
        (run 1000 800 [])) = false ∧
    (tapAll [tapTopLeft 5000, tapTopRight 5500, tapBottomRight 8500, tapBottomLeft 9000]
      (run 1000 800 [])).app.isParentModeActive = false ∧
    (tapAll [tapTopLeft 5000, tapTopRight 5500, tapBottomRight 8500]
      (run 1000 800 [])).currentSequenceIndex = 0 ∧
    (tapAll [tapTopLeft 5000, tapTopRight 5500, tapBottomRight 8500, tapBottomLeft 9000]
      (run 1000 800 [])).currentSequenceIndex = 0 ∧
    (tapAll [tapTopLeft 5000, tapTopRight 5500, tapBottomRight 8500]
      (run 1000 800 [])).uncaught =
      (tapAll [tapTopLeft 5000, tapTopRight 5500] (run 1000 800 [])).uncaught ++
        [JsError.typeError "events.js" 152 "currentSequenceIndex"] :=
  pause_never_activates 1000 800 [] (tapTopLeft 5000) (tapTopRight 5500)
    (tapBottomRight 8500) (tapBottomLeft 9000) rfl rfl
    (targetIsButton_examples 8500).2.2.1 (tappedCorner_examples 8500).2.2.1
    (by decide) (by decide)

/-! ## C10: the tap that completes the sequence -/

/-- C10: the tap that completes the corner sequence does not set `isParentModeActive`.
A tap that the gesture logic evaluates ends at its first assignment to
`currentSequenceIndex`: it leaves the parent-mode flag as it was, and it emits no
feedback, changes no background, opens no stroke and leaves `hasInteracted` unchanged
because the last block of the handler is not reached. After page load and the taps
top-left, top-right, bottom-right, the bottom-left tap is evaluated by the gesture
logic, and parent mode is off and no panel is shown after it. -/
theorem completing_tap_leaves_parent_mode_off :
    (∀ (event : TouchStartInput) (s : State), evaluatesGesture event s = true →
      (handleTouchStart event s).app.isParentModeActive = s.app.isParentModeActive ∧
      (handleTouchStart event s).feedback = s.feedback ∧
      (handleTouchStart event s).background = s.background ∧
      (handleTouchStart event s).isDrawing = s.isDrawing ∧
      (handleTouchStart event s).app.hasInteracted = s.app.hasInteracted ∧
      (handleTouchStart event s).panel = s.panel) ∧
    stateBeforeCompletion =
      tapAll [tapTopLeft 5000, tapTopRight 5500, tapBottomRight 6000] (onload 1000 800) ∧
    tappedCorner (tapBottomLeft 6500) = some Corner.bottomLeft ∧
    evaluatesGesture (tapBottomLeft 6500) stateBeforeCompletion = true ∧
    stateBeforeCompletion.app.isParentModeActive = false ∧
    (handleTouchStart (tapBottomLeft 6500) stateBeforeCompletion).app.isParentModeActive
      = false ∧
    (handleTouchStart (tapBottomLeft 6500) stateBeforeCompletion).panel = none ∧
    (handleTouchStart (tapBottomLeft 6500) stateBeforeCompletion).uncaught =
      stateBeforeCompletion.uncaught ++
        [JsError.typeError "events.js" 152 "currentSequenceIndex"] := by
  have hl : stateBeforeCompletion.app.isLocked = true := (tapAll_gesture _ _).2.2.2.2
  have hp : stateBeforeCompletion.app.isParentModeActive = false :=
    (tapAll_gesture _ _).2.2.2.1
  have ht : stateBeforeCompletion.lastTapTime = 0 := (tapAll_gesture _ _).2.1
  have he := evaluatesGesture_of (tapBottomLeft 6500) stateBeforeCompletion hl hp rfl
  have hs : handleTouchStart (tapBottomLeft 6500) stateBeforeCompletion = afterCornerTaps := by
    rw [← tapAll_openParentMenu]
    rfl
  refine ⟨?_, rfl, (tappedCorner_examples 6500).2.2.2.1, he, hp, ?_, ?_, ?_⟩
  · intro event s h
    rw [handleTouchStart_evaluated event s h]
    exact ⟨rfl, rfl, rfl, rfl, rfl, rfl⟩
  · exact (handleTouchStart_gesture _ _).2.2.2.trans hp
  · rw [hs]; rfl
  · apply (handleTouchStart_uncaught_corner stateBeforeCompletion (tapBottomLeft 6500)
      Corner.bottomLeft hl hp rfl (tappedCorner_examples 6500).2.2.2.1).1
    rw [ht]
    decide

/-! ## C21: no accidental activation -/

/-- C21: no call of `handleTouchStart` activates parent mode, in any state and after
any sequence of `handleTouchStart` calls: the only call of `activateParentMode` in the
handler stands behind the increment of line 156, which raises. A call therefore
activates parent mode only if the conditions of the claim hold. -/
theorem no_accidental_activation (s : State) (before : List TouchStartInput)
    (event : TouchStartInput) :
    activatesParentMode event (tapAll before s) = false ∧
    (handleTouchStart event (tapAll before s)).app.isParentModeActive =
      s.app.isParentModeActive :=
  ⟨handleTouchStart_never_activates _ _,
    (handleTouchStart_gesture _ _).2.2.2.trans (tapAll_gesture _ _).2.2.2.1⟩

/-! ## The tracing variables -/

theorem tracingSequence_examples :
    tracingSequence "shape-basic" = (lessonShapesBasic, "shape") ∧
    tracingSequence "shape-advanced" = (lessonShapesAdvanced, "shape") ∧
    tracingSequence "letter-az" = (lessonLetters, "letter") ∧
    tracingSequence "number-09" = (lessonNumbers, "number") ∧
    tracingSequence "freeplay" = ([], "") ∧
    tracingSequence "color-primary" = ([], "") ∧
    tracingSequence "color-all" = ([], "") := by
  refine ⟨?_, ?_, ?_, ?_, ?_, ?_, ?_⟩ <;> decide

theorem startNewTracingTarget_fields (s : State) (h : (tracingSequence
    s.app.currentLessonMode).1 ≠ []) :
    (startNewTracingTarget s).app = s.app ∧
    (startNewTracingTarget s).currentTargetToTrace =
      some (TracingTarget.mk (tracingSequence s.app.currentLessonMode).2
        ((tracingSequence s.app.currentLessonMode).1[s.currentSequenceIndexTracing]?)) ∧
    (startNewTracingTarget s).currentSequenceIndexTracing =
      (s.currentSequenceIndexTracing + 1) %
        (tracingSequence s.app.currentLessonMode).1.length ∧
    (startNewTracingTarget s).canvasPointerEvents = true ∧
    (startNewTracingTarget s).canvas = s.canvas ++
      [CanvasCmd.clearRect s.canvasWidth s.canvasHeight,
       CanvasCmd.strokeOutline (tracingSequence s.app.currentLessonMode).2
        ((tracingSequence s.app.currentLessonMode).1[s.currentSequenceIndexTracing]?)
        s.canvasWidth s.canvasHeight] ∧
    (startNewTracingTarget s).canvasWidth = s.canvasWidth ∧
    (startNewTracingTarget s).canvasHeight = s.canvasHeight ∧
    (startNewTracingTarget s).isDrawing = s.isDrawing := by
  have hpos : (tracingSequence s.app.currentLessonMode).1.length > 0 :=
    List.length_pos.mpr h
  unfold startNewTracingTarget
  rcases hts : tracingSequence s.app.currentLessonMode with ⟨glyphs, ty⟩
  rw [hts] at hpos
  simp only [hpos, if_true]
  simp [drawOutline, clearCanvas]

theorem startNewTracingTarget_app (s : State) :
    (startNewTracingTarget s).app = s.app := by
  simp only [startNewTracingTarget]
  split <;> rfl

/-! ## C15: `draw` and `stopDrawing` without an open stroke -/

/-- C15: while no stroke is open (`isDrawing` is false), `draw` and `stopDrawing` return
the state they were given: no tracing variable changes, nothing is issued to the canvas,
no celebration is shown and no advance is scheduled. No stroke is open when the module
is loaded, and none is open after any call of `stopDrawing`. -/
theorem draw_stopDrawing_without_stroke (s : State) (x y : ℚ) (h : s.isDrawing = false) :
    draw x y s = s ∧
    stopDrawing s = s ∧
    moduleState.isDrawing = false ∧
    (∀ t : State, (stopDrawing t).isDrawing = false) := by
  refine ⟨?_, ?_, rfl, ?_⟩
  · simp [draw, h]
  · simp [stopDrawing, h]
  · intro t
    cases hd : t.isDrawing
    · simp [stopDrawing, hd]
    · cases ht : t.currentTargetToTrace
      · simp [stopDrawing, hd, ht]
      · simp only [stopDrawing, hd, ht]
        simp only [Bool.not_true, Bool.false_eq_true, if_false]
        split_ifs <;> rfl

/-- Witness of C15: the state after page load, where no stroke has been started. -/
theorem draw_stopDrawing_without_stroke_witness :
    (onload 1000 800).isDrawing = false ∧
    draw 500 400 (onload 1000 800) = onload 1000 800 ∧
    stopDrawing (onload 1000 800) = onload 1000 800 :=
  ⟨rfl, (draw_stopDrawing_without_stroke (onload 1000 800) 500 400 rfl).1,
    (draw_stopDrawing_without_stroke (onload 1000 800) 500 400 rfl).2.1⟩

/-! ## C20: `startNewTracingTarget` without a tracing sequence -/

theorem startNewTracingTargetIn_LessonDefinitions (s : State) :
    startNewTracingTargetIn LessonDefinitions s = startNewTracingTarget s := rfl

theorem tracingSequenceIn_empty (catalog : String → Option LessonDefinition)
    (mode : String)
    (h : catalog mode = none ∨
      ∃ config, catalog mode = some config ∧
        (config.type ≠ "tracing" ∨ config.tracingItems = none ∨
          config.tracingItems = some [])) :
    tracingSequenceIn catalog mode = ([], "") := by
  unfold tracingSequenceIn
  rcases h with h | ⟨config, hc, h | h | h⟩
  · simp [h]
  · rw [hc]
    cases hi : config.tracingItems <;> simp [h, hi]
  · simp [hc, h]
  · simp [hc, h]

/-- C20: when the lesson identifier is absent from the catalogue, or names a lesson that
is not of type 'tracing', or names a tracing lesson without items,
`startNewTracingTarget` sets the target to `null`, clears the canvas (one `clearRect`,
pointer events off, no outline) and leaves the cursor and everything else unchanged.
With the catalogue `LessonDefinitions` it is the function of the source. -/
theorem startNewTracingTarget_idle (catalog : String → Option LessonDefinition)
    (s : State)
    (h : catalog s.app.currentLessonMode = none ∨
      ∃ config, catalog s.app.currentLessonMode = some config ∧
        (config.type ≠ "tracing" ∨ config.tracingItems = none ∨
          config.tracingItems = some [])) :
    startNewTracingTargetIn catalog s =
      { s with currentTargetToTrace := none, canvasPointerEvents := false,
               canvas := s.canvas ++ [CanvasCmd.clearRect s.canvasWidth s.canvasHeight] } ∧
    (startNewTracingTargetIn catalog s).currentTargetToTrace = none ∧
    (startNewTracingTargetIn catalog s).canvasPointerEvents = false ∧
    (startNewTracingTargetIn catalog s).canvas =
      s.canvas ++ [CanvasCmd.clearRect s.canvasWidth s.canvasHeight] ∧
    (startNewTracingTargetIn catalog s).currentSequenceIndexTracing =
      s.currentSequenceIndexTracing ∧
    startNewTracingTargetIn LessonDefinitions = startNewTracingTarget := by
  have e : startNewTracingTargetIn catalog s =
      { s with currentTargetToTrace := none, canvasPointerEvents := false,
               canvas := s.canvas ++ [CanvasCmd.clearRect s.canvasWidth s.canvasHeight] } := by
    unfold startNewTracingTargetIn
    rw [tracingSequenceIn_empty catalog _ h]
    rfl
  refine ⟨e, ?_, ?_, ?_, ?_, rfl⟩ <;> rw [e]

/-- Witness of C20: an identifier absent from `LessonDefinitions`, the lesson 'freeplay'
(of type 'emoji'), and a tracing lesson without items in another catalogue. -/
theorem startNewTracingTarget_idle_witness :
    (startNewTracingTarget
      (setLessonMode "shape-unknown" (onload 1000 800))).currentTargetToTrace = none ∧
    (startNewTracingTarget (onload 1000 800)).currentTargetToTrace = none ∧
    (startNewTracingTarget (onload 1000 800)).currentSequenceIndexTracing =
      (onload 1000 800).currentSequenceIndexTracing ∧
    (startNewTracingTargetIn emptyTracingCatalog
      (setLessonMode "shape-none" (onload 1000 800))).currentTargetToTrace = none :=
  ⟨(startNewTracingTarget_idle LessonDefinitions
      (setLessonMode "shape-unknown" (onload 1000 800)) (Or.inl (by decide))).2.1,
    (startNewTracingTarget_idle LessonDefinitions (onload 1000 800)
      (Or.inr ⟨_, rfl, Or.inl (by decide)⟩)).2.1,
    (startNewTracingTarget_idle LessonDefinitions (onload 1000 800)
      (Or.inr ⟨_, rfl, Or.inl (by decide)⟩)).2.2.2.2.1,
    (startNewTracingTarget_idle emptyTracingCatalog
      (setLessonMode "shape-none" (onload 1000 800))
      (Or.inr ⟨_, rfl, Or.inr (Or.inr (by decide))⟩)).2.1⟩

/-! ## C22: the prefix tests and the catalogue -/

theorem LessonDefinitions_keys (id : String) :
    (LessonDefinitions id).isSome = true ↔ id ∈ lessonIdentifiers := by
  unfold LessonDefinitions lessonIdentifiers
  split_ifs <;> simp_all

/-- C22: `LessonDefinitions` has exactly the seven identifiers of `lessonIdentifiers`. For
each of them, and from every state, `setLessonMode(id)` stores the identifier and sets
`isTracingModeActive` to true exactly when the type of `LessonDefinitions[id]` is
'tracing'; and the target that `startNewTracingTarget` then sets has the type 'shape'
for 'shape-basic' and 'shape-advanced', 'letter' for 'letter-az' and 'number' for
'number-09', while for the three lessons of type 'emoji' it sets no target. -/
theorem setLessonMode_agrees_with_catalog :
    lessonIdentifiers.length = 7 ∧ lessonIdentifiers.Nodup ∧
    (∀ id : String, (LessonDefinitions id).isSome = true ↔ id ∈ lessonIdentifiers) ∧
    (∀ id ∈ lessonIdentifiers, ∀ s : State,
      (setLessonMode id s).app.currentLessonMode = id ∧
      ((setLessonMode id s).app.isTracingModeActive = true ↔
        (LessonDefinitions id).map (fun config => config.type) = some "tracing")) ∧
    (∀ s : State,
      (startNewTracingTarget (setLessonMode "shape-basic" s)).currentTargetToTrace.map
        (fun target => target.type) = some "shape" ∧
      (startNewTracingTarget (setLessonMode "shape-advanced" s)).currentTargetToTrace.map
        (fun target => target.type) = some "shape" ∧
      (startNewTracingTarget (setLessonMode "letter-az" s)).currentTargetToTrace.map
        (fun target => target.type) = some "letter" ∧
      (startNewTracingTarget (setLessonMode "number-09" s)).currentTargetToTrace.map
        (fun target => target.type) = some "number" ∧
      (startNewTracingTarget (setLessonMode "freeplay" s)).currentTargetToTrace = none ∧
      (startNewTracingTarget (setLessonMode "color-primary" s)).currentTargetToTrace
        = none ∧
      (startNewTracingTarget (setLessonMode "color-all" s)).currentTargetToTrace = none) := by
  refine ⟨rfl, by decide, LessonDefinitions_keys, ?_, ?_⟩
  · intro id hid s
    refine ⟨rfl, ?_⟩
    show (startsWith id "shape-" || startsWith id "letter-" || startsWith id "number-") = true
      ↔ (LessonDefinitions id).map (fun config => config.type) = some "tracing"
    simp only [lessonIdentifiers, List.mem_cons, List.mem_singleton, List.mem_nil_iff,
      or_false] at hid
    rcases hid with rfl | rfl | rfl | rfl | rfl | rfl | rfl <;> decide
  · intro s
    refine ⟨?_, ?_, ?_, ?_, ?_, ?_, ?_⟩
    · rw [(startNewTracingTarget_fields (setLessonMode "shape-basic" s)
        (show (tracingSequence "shape-basic").1 ≠ [] by decide)).2.1]
      rfl
    · rw [(startNewTracingTarget_fields (setLessonMode "shape-advanced" s)
        (show (tracingSequence "shape-advanced").1 ≠ [] by decide)).2.1]
      rfl
    · rw [(startNewTracingTarget_fields (setLessonMode "letter-az" s)
        (show (tracingSequence "letter-az").1 ≠ [] by decide)).2.1]
      rfl
    · rw [(startNewTracingTarget_fields (setLessonMode "number-09" s)
        (show (tracingSequence "number-09").1 ≠ [] by decide)).2.1]
      rfl
    · rfl
    · rfl
    · rfl

/-! ## C17: `deactivateParentMode` -/

theorem interactedInParentMode_fields :
    interactedInParentMode.app.hasInteracted = true ∧
    interactedInParentMode.app.isParentModeActive = true ∧
    interactedInParentMode.background = Background.parentTheme ∧
    interactedInParentMode.uncaught =
      [JsError.referenceError "parentMode.js" 214 "getRandomElement"] := by
  have h : handleTouchStart (buttonTapTopLeft 5000) (onload 1000 800) =
      toddlerInteraction (buttonTapTopLeft 5000).clientX (buttonTapTopLeft 5000).clientY
        { onload 1000 800 with app := { (onload 1000 800).app with isTouching := true } } :=
    handleTouchStart_skipped _ _ rfl (Or.inr rfl)
  unfold interactedInParentMode
  rw [h]
  exact ⟨rfl, rfl, rfl, rfl⟩

/-- C17: `deactivateParentMode` does not return and does not reset `hasInteracted`. In
every state it turns parent mode and tracing mode off, clears the canvas, sets progress
and `lastTapTime` to 0 and starts the instruction interval exactly when the lesson is
'freeplay', with the lock and the lesson unchanged; then line 214 raises
`ReferenceError`, so `hasInteracted` and the background stay as they were. After page
load, a tap on a button and `activateParentMode()`, `hasInteracted` is true before and
after `deactivateParentMode()`, and the background is still the one of parent mode. -/
theorem deactivateParentMode_raises :
    (∀ s : State,
      (deactivateParentMode s).app.isParentModeActive = false ∧
      (deactivateParentMode s).app.isTracingModeActive = false ∧
      (deactivateParentMode s).canvas =
        s.canvas ++ [CanvasCmd.clearRect s.canvasWidth s.canvasHeight] ∧
      (deactivateParentMode s).canvasPointerEvents = false ∧
      (deactivateParentMode s).currentSequenceIndex = 0 ∧
      (deactivateParentMode s).lastTapTime = 0 ∧
      ((deactivateParentMode s).instructionTimerRunning = true ↔
        s.app.currentLessonMode = "freeplay") ∧
      (deactivateParentMode s).app.isLocked = s.app.isLocked ∧
      (deactivateParentMode s).app.currentLessonMode = s.app.currentLessonMode ∧
      (deactivateParentMode s).app.hasInteracted = s.app.hasInteracted ∧
      (deactivateParentMode s).background = s.background ∧
      (deactivateParentMode s).uncaught =
        s.uncaught ++ [JsError.referenceError "parentMode.js" 214 "getRandomElement"]) ∧
    interactedInParentMode.app.hasInteracted = true ∧
    (deactivateParentMode interactedInParentMode).app.hasInteracted = true ∧
    (deactivateParentMode interactedInParentMode).app.hasInteracted ≠ false ∧
    (deactivateParentMode interactedInParentMode).background = Background.parentTheme ∧
    (deactivateParentMode interactedInParentMode).uncaught =
      [JsError.referenceError "parentMode.js" 214 "getRandomElement",
       JsError.referenceError "parentMode.js" 214 "getRandomElement"] := by
  obtain ⟨h1, -, h3, h4⟩ := interactedInParentMode_fields
  have hi : (deactivateParentMode interactedInParentMode).app.hasInteracted = true := h1
  have hb : (deactivateParentMode interactedInParentMode).background =
      Background.parentTheme := h3
  have hu : (deactivateParentMode interactedInParentMode).uncaught =
      interactedInParentMode.uncaught ++
        [JsError.referenceError "parentMode.js" 214 "getRandomElement"] := rfl
  refine ⟨?_, h1, hi, ?_, hb, ?_⟩
  · intro s
    refine ⟨rfl, rfl, rfl, rfl, rfl, rfl, ?_, rfl, rfl, rfl, rfl, rfl⟩
    simp [deactivateParentMode, startParentInstructionTimer, clearCanvas,
      hideAllLessonPanels, setCurrentSequenceIndex, setParentModeActive, raise]
  · rw [hi]; decide
  · rw [hu, h4]; rfl

/-! ## C18: the tracing target when tracing mode is left -/

theorem firstOutline_fields :
    firstOutline.currentTargetToTrace = some (TracingTarget.mk "shape" (some "●")) ∧
    firstOutline.currentSequenceIndexTracing = 1 ∧
    firstOutline.app.isTracingModeActive = true ∧
    firstOutline.app.isLocked = true ∧
    firstOutline.app.currentLessonMode = "shape-basic" ∧
    firstOutline.pendingAdvances = 0 ∧
    firstOutline.isDrawing = false ∧
    firstOutline.canvasWidth = 1000 ∧
    firstOutline.canvasHeight = 800 ∧
    firstOutline.canvas =
      [CanvasCmd.clearRect 1000 800, CanvasCmd.clearRect 1000 800,
       CanvasCmd.strokeOutline "shape" (some "●") 1000 800] ∧
    firstOutline.celebrations = [] ∧
    firstOutline.uncaught =
      [JsError.referenceError "parentMode.js" 214 "getRandomElement"] := by
  obtain ⟨a, t, c, p, v, w, h, d⟩ := startNewTracingTarget_fields
    (setLessonMode "shape-basic" (onload 1000 800))
    (show (tracingSequence "shape-basic").1 ≠ [] by decide)
  have e : (setLessonMode "shape-basic" (onload 1000 800)).app.currentLessonMode =
      "shape-basic" := rfl
  rw [e, tracingSequence_examples.1] at t c v
  unfold firstOutline
  refine ⟨t, c, ?_, ?_, ?_, ?_, ?_, ?_, ?_, ?_, ?_, ?_⟩
  · rw [a]; rfl
  · rw [a]; rfl
  · rw [a]; rfl
  · simp [startNewTracingTarget, drawOutline, clearCanvas]; split <;> rfl
  · rw [d]; rfl
  · rw [w]; rfl
  · rw [h]; rfl
  · rw [v]; rfl
  · simp [startNewTracingTarget, drawOutline, clearCanvas]; split <;> rfl
  · simp [startNewTracingTarget, drawOutline, clearCanvas]; split <;> rfl

/-- C18, counterexample: after page load, `AppState.setLessonMode('shape-basic')` and
`startNewTracingTarget()`, the target is ●, and it is still ● and not `null` after
`clearCanvas()`, after `returnToParentMenuFromLesson()` and after
`deactivateParentMode()`. -/
theorem target_survives_leaving_lesson :
    firstOutline.currentTargetToTrace = some (TracingTarget.mk "shape" (some "●")) ∧
    (clearCanvas firstOutline).currentTargetToTrace =
      some (TracingTarget.mk "shape" (some "●")) ∧
    (clearCanvas firstOutline).currentTargetToTrace ≠ none ∧
    (returnToParentMenuFromLesson firstOutline).currentTargetToTrace =
      some (TracingTarget.mk "shape" (some "●")) ∧
    (returnToParentMenuFromLesson firstOutline).currentTargetToTrace ≠ none ∧
    (returnToParentMenuFromLesson firstOutline).app.isTracingModeActive = false ∧
    (deactivateParentMode firstOutline).currentTargetToTrace =
      some (TracingTarget.mk "shape" (some "●")) ∧
    (deactivateParentMode firstOutline).currentTargetToTrace ≠ none ∧
    (deactivateParentMode firstOutline).app.isTracingModeActive = false := by
  have h := firstOutline_fields.1
  have h1 : (clearCanvas firstOutline).currentTargetToTrace =
      firstOutline.currentTargetToTrace := rfl
  have h2 : (returnToParentMenuFromLesson firstOutline).currentTargetToTrace =
      firstOutline.currentTargetToTrace := rfl
  have h3 : (deactivateParentMode firstOutline).currentTargetToTrace =
      firstOutline.currentTargetToTrace := rfl
  refine ⟨h, h1.trans h, ?_, h2.trans h, ?_, rfl, h3.trans h, ?_, rfl⟩
  · rw [h1, h]; simp
  · rw [h2, h]; simp
  · rw [h3, h]; simp

/-- C18 (as amended): `clearCanvas`, `returnToParentMenuFromLesson` and
`deactivateParentMode` leave `currentTargetToTrace` as it was. The last two turn
`isTracingModeActive` off (`deactivateParentMode` before it raises at line 214), and
with that flag off neither `resizeCanvas` nor `stopDrawing` uses the target: they issue
nothing to the canvas. -/
theorem tracing_target_kept (s : State) (w h : ℚ) :
    (clearCanvas s).currentTargetToTrace = s.currentTargetToTrace ∧
    (deactivateParentMode s).currentTargetToTrace = s.currentTargetToTrace ∧
    (returnToParentMenuFromLesson s).currentTargetToTrace = s.currentTargetToTrace ∧
    (deactivateParentMode s).app.isTracingModeActive = false ∧
    (returnToParentMenuFromLesson s).app.isTracingModeActive = false ∧
    (deactivateParentMode s).uncaught =
      s.uncaught ++ [JsError.referenceError "parentMode.js" 214 "getRandomElement"] ∧
    (returnToParentMenuFromLesson s).uncaught = s.uncaught ∧
    (resizeCanvas w h (deactivateParentMode s)).canvas = (deactivateParentMode s).canvas ∧
    (stopDrawing (deactivateParentMode s)).canvas = (deactivateParentMode s).canvas ∧
    (resizeCanvas w h (returnToParentMenuFromLesson s)).canvas =
      (returnToParentMenuFromLesson s).canvas ∧
    (stopDrawing (returnToParentMenuFromLesson s)).canvas =
      (returnToParentMenuFromLesson s).canvas := by
  have hr : ∀ t : State, t.app.isTracingModeActive = false →
      (resizeCanvas w h t).canvas = t.canvas := by
    intro t ht
    cases hc : t.currentTargetToTrace <;> simp [resizeCanvas, hc, ht]
  have hs : ∀ t : State, t.app.isTracingModeActive = false →
      (stopDrawing t).canvas = t.canvas := by
    intro t ht
    cases hd : t.isDrawing
    · simp [stopDrawing, hd]
    · cases hc : t.currentTargetToTrace <;> simp [stopDrawing, hd, hc, ht]
  exact ⟨rfl, rfl, rfl, rfl, rfl, rfl, rfl, hr _ rfl, hs _ rfl, hr _ rfl, hs _ rfl⟩

/-! ## C11: the listeners of the tracing-lesson buttons -/

/-- The listener of a button that selects a lesson ends at its call of
`deactivateParentMode`, which events.js does not import. -/
theorem clickListener_lesson (b : Button) (id : String) (line : Nat) (s : State)
    (h : lessonOfButton b = some (id, line)) :
    clickListener b s =
      raise (JsError.referenceError "events.js" line "deactivateParentMode")
        (setLessonMode id s) := by
  cases b <;> simp [lessonOfButton] at h <;> obtain ⟨rfl, rfl⟩ := h <;> rfl

/-- A tap on a non-button target opens no stroke. -/
theorem handleTouchStart_isDrawing (event : TouchStartInput) (s : State)
    (hb : targetIsButton event = false) :
    (handleTouchStart event s).isDrawing = s.isDrawing := by
  cases hl : s.app.isLocked
  · rw [handleTouchStart_unlocked event s hl]
  · cases hp : s.app.isParentModeActive
    · rw [handleTouchStart_evaluated event s (evaluatesGesture_of event s hl hp hb)]
      rfl
    · rw [handleTouchStart_skipped event s hl (Or.inl hp)]
      simp [toddlerInteraction, hp]

/-- C11: the listener of each of the four tracing-lesson buttons ends at its call of
`deactivateParentMode`, a name that events.js does not import: after it
`isTracingModeActive` is true, but `startNewTracingTarget` has not run, so the target
and the canvas are as they were, and no later tap on a non-button target opens a
stroke. After page load and a click on the basic-shapes button no target is set and no
outline is drawn; the tap that follows in the middle of the window is evaluated by the
gesture logic and ends at line 166: `isDrawing` stays false and no feedback is
emitted. -/
theorem lesson_button_shows_no_outline :
    (∀ b ∈ tracingLessonButtons, ∀ s : State,
      (clickListener b s).app.isTracingModeActive = true ∧
      (clickListener b s).currentTargetToTrace = s.currentTargetToTrace ∧
      (clickListener b s).canvas = s.canvas ∧
      (clickListener b s).app.isParentModeActive = s.app.isParentModeActive ∧
      (∃ id line, lessonOfButton b = some (id, line) ∧
        (clickListener b s).uncaught =
          s.uncaught ++ [JsError.referenceError "events.js" line "deactivateParentMode"]) ∧
      (∀ event : TouchStartInput, targetIsButton event = false →
        (handleTouchStart event (clickListener b s)).isDrawing = s.isDrawing)) ∧
    (run 1000 800 [Op.click Button.shapeBasicBtn]).app.isLocked = true ∧
    (run 1000 800 [Op.click Button.shapeBasicBtn]).app.isTracingModeActive = true ∧
    (run 1000 800 [Op.click Button.shapeBasicBtn]).currentTargetToTrace = none ∧
    (run 1000 800 [Op.click Button.shapeBasicBtn]).canvas = [CanvasCmd.clearRect 1000 800] ∧
    (run 1000 800 [Op.click Button.shapeBasicBtn]).uncaught =
      [JsError.referenceError "parentMode.js" 214 "getRandomElement",
       JsError.referenceError "events.js" 76 "deactivateParentMode"] ∧
    targetIsButton (tapCentre 5000) = false ∧
    (run 1000 800 [Op.click Button.shapeBasicBtn, Op.touchStart (tapCentre 5000)]).isDrawing
      = false ∧
    (run 1000 800 [Op.click Button.shapeBasicBtn, Op.touchStart (tapCentre 5000)]).feedback
      = [] ∧
    (run 1000 800 [Op.click Button.shapeBasicBtn, Op.touchStart (tapCentre 5000)]).uncaught =
      [JsError.referenceError "parentMode.js" 214 "getRandomElement",
       JsError.referenceError "events.js" 76 "deactivateParentMode",
       JsError.typeError "events.js" 166 "currentSequenceIndex"] := by
  have he : evaluatesGesture (tapCentre 5000) (run 1000 800 [Op.click Button.shapeBasicBtn])
      = true := rfl
  have hs : run 1000 800 [Op.click Button.shapeBasicBtn, Op.touchStart (tapCentre 5000)] =
      handleTouchStart (tapCentre 5000) (run 1000 800 [Op.click Button.shapeBasicBtn]) := rfl
  have hf : firstAssignmentLine (tapCentre 5000)
      (run 1000 800 [Op.click Button.shapeBasicBtn]) = 166 := by
    unfold firstAssignmentLine
    rw [(tappedCorner_examples 5000).2.2.2.2]
  refine ⟨?_, rfl, rfl, rfl, rfl, rfl, rfl, ?_, ?_, ?_⟩
  · intro b hb s
    have hcases : b = Button.shapeBasicBtn ∨ b = Button.shapeAdvancedBtn ∨
        b = Button.letterAZBtn ∨ b = Button.number09Btn := by
      simpa [tracingLessonButtons] using hb
    have hd : ∀ event : TouchStartInput, targetIsButton event = false →
        (handleTouchStart event (clickListener b s)).isDrawing =
          (clickListener b s).isDrawing :=
      fun event h => handleTouchStart_isDrawing event _ h
    rcases hcases with rfl | rfl | rfl | rfl
    · exact ⟨rfl, rfl, rfl, rfl, ⟨_, _, rfl, rfl⟩, hd⟩
    · exact ⟨rfl, rfl, rfl, rfl, ⟨_, _, rfl, rfl⟩, hd⟩
    · exact ⟨rfl, rfl, rfl, rfl, ⟨_, _, rfl, rfl⟩, hd⟩
    · exact ⟨rfl, rfl, rfl, rfl, ⟨_, _, rfl, rfl⟩, hd⟩
  · rw [hs, handleTouchStart_evaluated _ _ he]; rfl
  · rw [hs, handleTouchStart_evaluated _ _ he]; rfl
  · rw [hs, handleTouchStart_uncaught _ _ he, hf]; rfl

/-! ## C12: the tracing flag and the lesson -/

/-- C12: the tracing flag does not follow the lesson and parent mode. After page load
the invariant holds, and it holds after a click on the basic-shapes button. After the
click on the back button of the shape panel that follows, the flag is off while the
lesson is 'shape-basic', of type 'tracing', and parent mode is off: the listener ends
at its call of `clearCanvas`, which events.js does not import. After page load,
`activateParentMode()` and a click on the basic-shapes button, the flag is on while
parent mode is active: the listener ends before `deactivateParentMode` runs. -/
theorem tracing_flag_disagrees :
    TracingFlagAgrees (run 1000 800 []) ∧
    TracingFlagAgrees (run 1000 800 [Op.click Button.shapeBasicBtn]) ∧
    (run 1000 800 [Op.click Button.shapeBasicBtn,
      Op.click Button.shapeBackBtn]).app.isTracingModeActive = false ∧
    (run 1000 800 [Op.click Button.shapeBasicBtn,
      Op.click Button.shapeBackBtn]).app.currentLessonMode = "shape-basic" ∧
    (LessonDefinitions "shape-basic").map (fun config => config.type) = some "tracing" ∧
    (run 1000 800 [Op.click Button.shapeBasicBtn,
      Op.click Button.shapeBackBtn]).app.isParentModeActive = false ∧
    (run 1000 800 [Op.click Button.shapeBasicBtn, Op.click Button.shapeBackBtn]).uncaught =
      [JsError.referenceError "parentMode.js" 214 "getRandomElement",
       JsError.referenceError "events.js" 76 "deactivateParentMode",
       JsError.referenceError "events.js" 87 "clearCanvas"] ∧
    ¬ TracingFlagAgrees (run 1000 800 [Op.click Button.shapeBasicBtn,
      Op.click Button.shapeBackBtn]) ∧
    (clickListener Button.shapeBasicBtn
      (activateParentMode (onload 1000 800))).app.isTracingModeActive = true ∧
    (clickListener Button.shapeBasicBtn
      (activateParentMode (onload 1000 800))).app.isParentModeActive = true ∧
    ¬ TracingFlagAgrees (clickListener Button.shapeBasicBtn
      (activateParentMode (onload 1000 800))) := by
  have ht : (LessonDefinitions "shape-basic").map (fun config => config.type) =
      some "tracing" := by decide
  have hf : (LessonDefinitions "freeplay").map (fun config => config.type) ≠
      some "tracing" := by decide
  refine ⟨?_, ?_, rfl, rfl, ht, rfl, rfl, ?_, rfl, rfl, ?_⟩
  · constructor
    · intro h
      exact absurd h (by decide)
    · intro h
      exact absurd h.1 hf
  · constructor
    · intro _
      exact ⟨ht, rfl⟩
    · intro _
      rfl
  · intro h
    have h2 := h.2 ⟨ht, rfl⟩
    exact absurd h2 (by decide)
  · intro h
    have h2 := (h.1 rfl).2
    exact absurd h2 (by decide)

/-! ## C14: the cursor after a change of lesson -/

theorem lettersThenShapes_fields :
    lettersThenShapes.app.currentLessonMode = "shape-basic" ∧
    lettersThenShapes.currentSequenceIndexTracing = 3 ∧
    lettersThenShapes.canvasWidth = 1000 ∧
    lettersThenShapes.canvasHeight = 800 ∧
    lettersThenShapes.currentTargetToTrace =
      some (TracingTarget.mk "letter" (some "C")) := by
  have hl : (tracingSequence "letter-az").1 ≠ [] := by decide
  have hlen : lessonLetters.length = 26 := by decide
  have e0 : (setLessonMode "letter-az" (onload 1000 800)).app.currentLessonMode =
      "letter-az" := rfl
  obtain ⟨a1, -, c1, -, -, w1, h1, -⟩ := startNewTracingTarget_fields
    (setLessonMode "letter-az" (onload 1000 800)) (by rw [e0]; exact hl)
  rw [e0, tracingSequence_examples.2.2.1] at c1
  have m1 : (startNewTracingTarget
      (setLessonMode "letter-az" (onload 1000 800))).app.currentLessonMode = "letter-az" := by
    rw [a1]; rfl
  obtain ⟨a2, -, c2, -, -, w2, h2, -⟩ := startNewTracingTarget_fields
    (startNewTracingTarget (setLessonMode "letter-az" (onload 1000 800)))
    (by rw [m1]; exact hl)
  rw [m1, tracingSequence_examples.2.2.1, c1] at c2
  have m2 : (startNewTracingTarget (startNewTracingTarget
      (setLessonMode "letter-az" (onload 1000 800)))).app.currentLessonMode = "letter-az" := by
    rw [a2]; exact m1
  obtain ⟨-, t3, c3, -, -, w3, h3, -⟩ := startNewTracingTarget_fields
    (startNewTracingTarget (startNewTracingTarget
      (setLessonMode "letter-az" (onload 1000 800))))
    (by rw [m2]; exact hl)
  rw [m2, tracingSequence_examples.2.2.1, c2] at c3 t3
  have hc : lettersThenShapes.currentSequenceIndexTracing = 3 := by
    show (startNewTracingTarget (startNewTracingTarget (startNewTracingTarget
      (setLessonMode "letter-az" (onload 1000 800))))).currentSequenceIndexTracing = 3
    rw [c3]
    simp only [hlen]
    rfl
  refine ⟨rfl, hc, ?_, ?_, ?_⟩
  · show (startNewTracingTarget (startNewTracingTarget (startNewTracingTarget
      (setLessonMode "letter-az" (onload 1000 800))))).canvasWidth = 1000
    rw [w3, w2, w1]; rfl
  · show (startNewTracingTarget (startNewTracingTarget (startNewTracingTarget
      (setLessonMode "letter-az" (onload 1000 800))))).canvasHeight = 800
    rw [h3, h2, h1]; rfl
  · show (startNewTracingTarget (startNewTracingTarget (startNewTracingTarget
      (setLessonMode "letter-az" (onload 1000 800))))).currentTargetToTrace = _
    rw [t3]
    simp only [hlen]
    decide

/-- C14: the cursor read by `startNewTracingTarget` can be out of range. After page
load, `AppState.setLessonMode('letter-az')`, three calls of `startNewTracingTarget()`
and `AppState.setLessonMode('shape-basic')`, the cursor is 3, while the basic-shapes
lesson has the three glyphs of indices 0 to 2. The call of `startNewTracingTarget()`
that follows reads `lessonShapesBasic[3]`, which is `undefined`: the target has no
content, it is no glyph of the lesson, and the outline is drawn for it. Only then is
the cursor reduced modulo 3. -/
theorem cursor_out_of_range_after_switch :
    lettersThenShapes.app.currentLessonMode = "shape-basic" ∧
    lettersThenShapes.currentSequenceIndexTracing = 3 ∧
    tracingSequence "shape-basic" = (lessonShapesBasic, "shape") ∧
    lessonShapesBasic.length = 3 ∧
    lessonShapesBasic[lettersThenShapes.currentSequenceIndexTracing]? = none ∧
    (startNewTracingTarget lettersThenShapes).currentTargetToTrace =
      some (TracingTarget.mk "shape" none) ∧
    (∀ g ∈ lessonShapesBasic,
      (startNewTracingTarget lettersThenShapes).currentTargetToTrace ≠
        some (TracingTarget.mk "shape" (some g))) ∧
    (startNewTracingTarget lettersThenShapes).canvas =
      lettersThenShapes.canvas ++
        [CanvasCmd.clearRect 1000 800, CanvasCmd.strokeOutline "shape" none 1000 800] ∧
    (startNewTracingTarget lettersThenShapes).currentSequenceIndexTracing = 1 := by
  obtain ⟨m, c, w, h, -⟩ := lettersThenShapes_fields
  obtain ⟨-, t, c2, -, v, -, -, -⟩ := startNewTracingTarget_fields lettersThenShapes
    (by rw [m]; decide)
  rw [m, tracingSequence_examples.1, c] at t c2 v
  rw [w, h] at v
  have ht : (startNewTracingTarget lettersThenShapes).currentTargetToTrace =
      some (TracingTarget.mk "shape" none) := t
  refine ⟨m, c, tracingSequence_examples.1, rfl, by rw [c]; rfl, ht, ?_, v, c2⟩
  intro g _
  rw [ht]
  simp

/-! ## C13: the cycle of targets -/

theorem startDrawing_tracing (x y : ℚ) (s : State) :
    (startDrawing x y s).currentTargetToTrace = s.currentTargetToTrace ∧
    (startDrawing x y s).currentSequenceIndexTracing = s.currentSequenceIndexTracing ∧
    (startDrawing x y s).pendingAdvances = s.pendingAdvances ∧
    (startDrawing x y s).celebrations = s.celebrations := by
  unfold startDrawing
  split_ifs <;> exact ⟨rfl, rfl, rfl, rfl⟩

theorem stopDrawing_tracing (s : State) :
    (stopDrawing s).currentTargetToTrace = s.currentTargetToTrace ∧
    (stopDrawing s).currentSequenceIndexTracing = s.currentSequenceIndexTracing ∧
    (stopDrawing s).pendingAdvances = s.pendingAdvances ∧
    (stopDrawing s).celebrations = s.celebrations := by
  unfold stopDrawing
  cases hd : s.isDrawing
  · exact ⟨rfl, rfl, rfl, rfl⟩
  · cases hc : s.currentTargetToTrace
    · simp [hc]
    · cases ht : s.app.isTracingModeActive <;> simp [hc, ht, raise]

/-- A stroke changes neither the target nor the cursor, shows no celebration and
schedules no advance. -/
theorem completedStroke_tracing (p : ℚ × ℚ) (s : State) (h : s.pendingAdvances = 0) :
    (completedStroke p s).currentTargetToTrace = s.currentTargetToTrace ∧
    (completedStroke p s).currentSequenceIndexTracing = s.currentSequenceIndexTracing ∧
    (completedStroke p s).pendingAdvances = 0 ∧
    (completedStroke p s).celebrations = s.celebrations := by
  obtain ⟨a1, a2, a3, a4⟩ := startDrawing_tracing p.1 p.2 s
  obtain ⟨b1, b2, b3, b4⟩ := stopDrawing_tracing (startDrawing p.1 p.2 s)
  have h0 : (stopDrawing (startDrawing p.1 p.2 s)).pendingAdvances = 0 := by
    rw [b3, a3, h]
  have e : completedStroke p s = stopDrawing (startDrawing p.1 p.2 s) := by
    unfold completedStroke advanceTimeout
    rw [if_pos h0]
  rw [e]
  exact ⟨b1.trans a1, b2.trans a2, h0, b4.trans a4⟩

theorem traceAll_tracing (points : List (ℚ × ℚ)) (s : State) (h : s.pendingAdvances = 0) :
    (traceAll points s).currentTargetToTrace = s.currentTargetToTrace ∧
    (traceAll points s).currentSequenceIndexTracing = s.currentSequenceIndexTracing ∧
    (traceAll points s).pendingAdvances = 0 ∧
    (traceAll points s).celebrations = s.celebrations := by
  induction points generalizing s with
  | nil => exact ⟨rfl, rfl, h, rfl⟩
  | cons p rest ih =>
    obtain ⟨c1, c2, c3, c4⟩ := completedStroke_tracing p s h
    obtain ⟨i1, i2, i3, i4⟩ := ih (completedStroke p s) c3
    exact ⟨i1.trans c1, i2.trans c2, i3, i4.trans c4⟩

/-- With the screen locked and tracing active, `startDrawing` opens the stroke and
raises at line 166. -/
theorem startDrawing_active (x y : ℚ) (s : State) (hl : s.app.isLocked = true)
    (hf : s.app.isTracingModeActive = true) :
    (startDrawing x y s).isDrawing = true ∧
    (startDrawing x y s).canvas = s.canvas ++ [CanvasCmd.beginStroke x y] ∧
    (startDrawing x y s).uncaught =
      s.uncaught ++ [JsError.referenceError "tracing.js" 166 "getRandomElement"] ∧
    (startDrawing x y s).app = s.app ∧
    (startDrawing x y s).canvasWidth = s.canvasWidth ∧
    (startDrawing x y s).canvasHeight = s.canvasHeight := by
  simp [startDrawing, hl, hf, raise]

/-- With a stroke open, tracing active and a target set, `stopDrawing` closes the
stroke, issues `save` and `translate`, and raises at line 195. -/
theorem stopDrawing_active (s : State) (target : TracingTarget)
    (hd : s.isDrawing = true) (hf : s.app.isTracingModeActive = true)
    (ht : s.currentTargetToTrace = some target) :
    (stopDrawing s).isDrawing = false ∧
    (stopDrawing s).canvas =
      s.canvas ++ [CanvasCmd.fillStart (s.canvasWidth / 2) (s.canvasHeight / 2)] ∧
    (stopDrawing s).uncaught =
      s.uncaught ++ [JsError.referenceError "tracing.js" 195 "getRandomElement"] := by
  simp [stopDrawing, hd, hf, ht, raise]

theorem stroke_on_firstOutline :
    (startDrawing 500 400 firstOutline).isDrawing = true ∧
    (startDrawing 500 400 firstOutline).uncaught =
      [JsError.referenceError "parentMode.js" 214 "getRandomElement",
       JsError.referenceError "tracing.js" 166 "getRandomElement"] ∧
    (stopDrawing (startDrawing 500 400 firstOutline)).isDrawing = false ∧
    (stopDrawing (startDrawing 500 400 firstOutline)).canvas =
      [CanvasCmd.clearRect 1000 800, CanvasCmd.clearRect 1000 800,
       CanvasCmd.strokeOutline "shape" (some "●") 1000 800,
       CanvasCmd.beginStroke 500 400, CanvasCmd.fillStart (1000 / 2) (800 / 2)] ∧
    (stopDrawing (startDrawing 500 400 firstOutline)).uncaught =
      [JsError.referenceError "parentMode.js" 214 "getRandomElement",
       JsError.referenceError "tracing.js" 166 "getRandomElement",
       JsError.referenceError "tracing.js" 195 "getRandomElement"] := by
  obtain ⟨t, -, f, l, -, -, -, w, h, v, -, u⟩ := firstOutline_fields
  obtain ⟨a1, a2, a3, a4, a5, a6⟩ := startDrawing_active 500 400 firstOutline l f
  obtain ⟨b1, b2, b3⟩ := stopDrawing_active (startDrawing 500 400 firstOutline) _ a1
    (by rw [a4]; exact f) ((startDrawing_tracing 500 400 firstOutline).1.trans t)
  refine ⟨a1, ?_, b1, ?_, ?_⟩
  · rw [a3, u]; rfl
  · rw [b2, a2, a5, a6, v, w, h]; rfl
  · rw [b3, a3, u]; rfl

/-- C13: a stroke does not advance the target. After page load,
`AppState.setLessonMode('shape-basic')` and `startNewTracingTarget()`, the target is
●, the first glyph. The stroke `startDrawing` at (500, 400), `stopDrawing()` raises
`ReferenceError` at line 166 and at line 195 of tracing.js: nothing is filled, no
celebration is shown and no advance is scheduled. After it, and after any number of
strokes, the target is still ●, where the cycle gives ■ after the first stroke. -/
theorem stroke_does_not_advance_target :
    firstOutline.currentTargetToTrace = some (TracingTarget.mk "shape" (some "●")) ∧
    lessonShapesBasic[1 % lessonShapesBasic.length]? = some "■" ∧
    (startDrawing 500 400 firstOutline).uncaught =
      [JsError.referenceError "parentMode.js" 214 "getRandomElement",
       JsError.referenceError "tracing.js" 166 "getRandomElement"] ∧
    (stopDrawing (startDrawing 500 400 firstOutline)).uncaught =
      [JsError.referenceError "parentMode.js" 214 "getRandomElement",
       JsError.referenceError "tracing.js" 166 "getRandomElement",
       JsError.referenceError "tracing.js" 195 "getRandomElement"] ∧
    (completedStroke (500, 400) firstOutline).currentTargetToTrace =
      some (TracingTarget.mk "shape" (some "●")) ∧
    (completedStroke (500, 400) firstOutline).currentTargetToTrace ≠
      some (TracingTarget.mk "shape" (some "■")) ∧
    (completedStroke (500, 400) firstOutline).celebrations = [] ∧
    (completedStroke (500, 400) firstOutline).pendingAdvances = 0 ∧
    (∀ points : List (ℚ × ℚ),
      (traceAll points firstOutline).currentTargetToTrace =
        some (TracingTarget.mk "shape" (some "●")) ∧
      (traceAll points firstOutline).currentSequenceIndexTracing = 1) := by
  obtain ⟨t, c, -, -, -, p, -, -, -, -, cel, -⟩ := firstOutline_fields
  obtain ⟨-, u1, -, -, u2⟩ := stroke_on_firstOutline
  obtain ⟨s1, -, s3, s4⟩ := completedStroke_tracing (500, 400) firstOutline p
  refine ⟨t, by decide, u1, u2, s1.trans t, ?_, s4.trans cel, s3, ?_⟩
  · rw [s1, t]
    decide
  · intro points
    obtain ⟨a1, a2, -, -⟩ := traceAll_tracing points firstOutline p
    exact ⟨a1.trans t, a2.trans c⟩

/-! ## C16: the advance callback -/

theorem step_pendingAdvances (s : State) (op : Op) (h : s.pendingAdvances = 0) :
    (step s op).pendingAdvances = 0 := by
  cases op with
  | touchStart event => exact (handleTouchStart_tracing event s).2.2.2.2.2.trans h
  | touchMove event =>
    simp only [step, handleTouchMove, draw, generateSwipeFeedback, changeBackgroundGradient]
    split_ifs <;> exact h
  | touchEnd =>
    simp only [step, handleTouchEnd]
    split_ifs
    · exact (stopDrawing_tracing _).2.2.1.trans h
    · exact h
    · exact h
  | keyDown event =>
    simp only [step, handleKeyDown, unlockScreen, generateTapFeedback,
      changeBackgroundGradient]
    split_ifs <;> exact h
  | click b => cases b <;> exact h
  | resize w h' =>
    simp only [step, resizeCanvas]
    split
    · split_ifs <;> exact h
    · exact h
  | advanceTimeout =>
    simp only [step, advanceTimeout, if_pos h]
    exact h
  | initialMessageTimeout =>
    simp only [step, initialMessageTimeout]
    split_ifs <;> exact h

theorem foldl_step_pendingAdvances (ops : List Op) (s : State) (h : s.pendingAdvances = 0) :
    (ops.foldl step s).pendingAdvances = 0 := by
  induction ops generalizing s with
  | nil => exact h
  | cons op rest ih => exact ih (step s op) (step_pendingAdvances s op h)

/-- C16: no advance callback is ever pending. `stopDrawing`, the only function that
sets the timeout of `startNewTracingTarget`, raises at line 195 before it reaches
`setTimeout`, in every state: it schedules nothing. After page load and any sequence of
events no callback is pending, so none fires after tracing mode has been left, and the
tracing state and the canvas are changed by no callback. -/
theorem advance_never_scheduled (innerWidth innerHeight : ℚ) (ops : List Op) :
    (∀ s : State, (stopDrawing s).pendingAdvances = s.pendingAdvances) ∧
    (∀ (p : ℚ × ℚ) (s : State),
      (stopDrawing (startDrawing p.1 p.2 s)).pendingAdvances = s.pendingAdvances) ∧
    (run innerWidth innerHeight ops).pendingAdvances = 0 ∧
    step (run innerWidth innerHeight ops) Op.advanceTimeout =
      run innerWidth innerHeight ops ∧
    run innerWidth innerHeight (ops ++ [Op.advanceTimeout]) =
      run innerWidth innerHeight ops := by
  have h0 : (run innerWidth innerHeight ops).pendingAdvances = 0 :=
    foldl_step_pendingAdvances ops _ rfl
  have hs : step (run innerWidth innerHeight ops) Op.advanceTimeout =
      run innerWidth innerHeight ops := by
    simp only [step, advanceTimeout, if_pos h0]
  refine ⟨fun s => (stopDrawing_tracing s).2.2.1, ?_, h0, hs, ?_⟩
  · intro p s
    exact ((stopDrawing_tracing _).2.2.1).trans (startDrawing_tracing p.1 p.2 s).2.2.1
  · rw [run_append]
    exact hs

/-! ## C19: the geometry of the fill and of the outline -/

theorem fillStarLoop_eq (count : Nat) (outerRadius innerRadius rot step : ℚ) :
    fillStarLoop count outerRadius innerRadius rot step =
      outlineStarLoop count outerRadius innerRadius rot step := by
  induction count generalizing rot with
  | zero => rfl
  | succ n ih => simp [fillStarLoop, outlineStarLoop, ih]

theorem fillShapePath_eq (content : Option String) (size : ℚ) :
    fillShapePath content size = outlineShapePath content size := by
  unfold fillShapePath outlineShapePath
  simp only [fillStarLoop_eq]

theorem geometry_append (a b : List CtxCall) :
    geometry (a ++ b) = geometry a ++ geometry b := by
  simp [geometry, List.filterMap_append]

theorem filterMap_outlineStarLoop (count : Nat) (outerRadius innerRadius rot step : ℚ) :
    List.filterMap geometryCall (outlineStarLoop count outerRadius innerRadius rot step) =
      outlineStarLoop count outerRadius innerRadius rot step := by
  induction count generalizing rot with
  | zero => rfl
  | succ n ih => simp [outlineStarLoop, geometryCall, ih]

theorem geometry_outlineShapePath (content : Option String) (size : ℚ) :
    geometry (outlineShapePath content size) = outlineShapePath content size := by
  unfold outlineShapePath geometry
  split_ifs <;> simp [geometryCall, List.filterMap_append, filterMap_outlineStarLoop]

/-- The geometry of the outline: `save`, the translation, the path or the text, and
`restore`. -/
theorem geometry_drawOutlineCalls (type : String) (content : Option String)
    (width height : ℚ) :
    geometry (drawOutlineCalls type content width height) =
      [CtxCall.save, CtxCall.translate (width / 2) (height / 2)] ++
        geometry (if type = "shape" then
            [CtxCall.beginPath] ++ outlineShapePath content (min width height * 0.4) ++
              [CtxCall.stroke]
          else if type = "letter" ∨ type = "number" then
            [CtxCall.setFont (min width height * 0.4 * 0.8) "'Inter', sans-serif",
             CtxCall.setTextAlign "center", CtxCall.setTextBaseline "middle",
             CtxCall.strokeText content 0 0]
          else []) ++
        [CtxCall.restore] := by
  simp [drawOutlineCalls, geometry, geometryCall, List.filterMap_append]

/-- The statements of the fill that are not reached build the geometry of the
outline. -/
theorem geometry_fillStatementsNotReached (type : String) (content : Option String)
    (width height : ℚ) (fillColor : String) :
    geometry (stopDrawingFillCalls width height ++
        fillStatementsNotReached (TracingTarget.mk type content) width height fillColor) =
      geometry (drawOutlineCalls type content width height) := by
  rw [geometry_drawOutlineCalls]
  by_cases h : type = "shape"
  · have hg := geometry_outlineShapePath content (min width height * 0.4)
    simp only [geometry] at hg
    simp [stopDrawingFillCalls, fillStatementsNotReached, geometry, geometryCall,
      List.filterMap_append, h, hg, fillShapePath_eq]
  · simp only [stopDrawingFillCalls, fillStatementsNotReached, h, if_false]
    split_ifs <;> simp [geometry, geometryCall]

/-- C19: `stopDrawing` does not fill the geometry of the outline: it fills nothing.
On every canvas the fill block issues `save` and the translation to the centre, then
the assignment of the fill colour raises at line 195; what it has issued differs from
the geometry of the outline of every target, which goes on with the path or the text
and `restore`. The statements that are not reached (lines 195 to 221) would complete
it to the geometry of the outline. After page load,
`AppState.setLessonMode('shape-basic')`, `startNewTracingTarget()`, `startDrawing` at
(500, 400) and `stopDrawing()` on a canvas of 1000 by 800, the canvas has received the
outline of ●, the start of the stroke and the `save` and `translate` of the fill, and
nothing else. -/
theorem fill_raises_before_path :
    (∀ width height : ℚ,
      geometry (stopDrawingFillCalls width height) =
        [CtxCall.save, CtxCall.translate (width / 2) (height / 2)]) ∧
    (∀ (type : String) (content : Option String) (width height : ℚ),
      geometry (stopDrawingFillCalls width height) ≠
        geometry (drawOutlineCalls type content width height)) ∧
    (∀ (type : String) (content : Option String) (width height : ℚ) (fillColor : String),
      geometry (stopDrawingFillCalls width height ++
          fillStatementsNotReached (TracingTarget.mk type content) width height fillColor) =
        geometry (drawOutlineCalls type content width height)) ∧
    geometry (drawOutlineCalls "shape" (some "●") 1000 800) =
      [CtxCall.save, CtxCall.translate 500 400, CtxCall.beginPath,
       CtxCall.arc 0 0 160 0 2, CtxCall.stroke, CtxCall.restore] ∧
    geometry (stopDrawingFillCalls 1000 800) = [CtxCall.save, CtxCall.translate 500 400] ∧
    (stopDrawing (startDrawing 500 400 firstOutline)).canvas =
      [CanvasCmd.clearRect 1000 800, CanvasCmd.clearRect 1000 800,
       CanvasCmd.strokeOutline "shape" (some "●") 1000 800,
       CanvasCmd.beginStroke 500 400, CanvasCmd.fillStart (1000 / 2) (800 / 2)] ∧
    (stopDrawing (startDrawing 500 400 firstOutline)).uncaught.getLast? =
      some (JsError.referenceError "tracing.js" 195 "getRandomElement") := by
  have hfill : ∀ width height : ℚ,
      geometry (stopDrawingFillCalls width height) =
        [CtxCall.save, CtxCall.translate (width / 2) (height / 2)] := by
    intro width height
    rfl
  obtain ⟨-, -, -, v, u⟩ := stroke_on_firstOutline
  refine ⟨hfill, ?_, geometry_fillStatementsNotReached, ?_, ?_, v, ?_⟩
  · intro type content width height h
    have hl := congrArg List.length h
    rw [hfill, geometry_drawOutlineCalls] at hl
    simp at hl
  · rw [geometry_drawOutlineCalls]
    norm_num [outlineShapePath, geometry, geometryCall]
    rfl
  · rw [hfill]
    norm_num
  · rw [u]
    rfl

/-! ## C25: the lock -/

theorem handleKeyDown_isLocked (event : KeyDownInput) (s : State) :
    (handleKeyDown event s).app.isLocked =
      (s.app.isLocked && !isUnlockCombination event) := by
  cases hl : s.app.isLocked
  · simp [handleKeyDown, hl]
  · cases hc : isUnlockCombination event
    · have hc2 : (event.ctrlKey && event.shiftKey && decide (event.key = "L")) = false := hc
      simp only [handleKeyDown, hl, hc2, Bool.false_eq_true, if_false, if_true,
        generateTapFeedback, changeBackgroundGradient]
      split_ifs <;> simp [hl]
    · have hc2 : (event.ctrlKey && event.shiftKey && decide (event.key = "L")) = true := hc
      simp only [handleKeyDown, hl, hc2, if_true]
      rfl

theorem clickListener_isLocked (b : Button) (s : State) :
    (clickListener b s).app.isLocked = s.app.isLocked := by
  cases b <;> rfl

theorem step_isLocked (s : State) (op : Op) (h : isUnlockKeyDown op = false) :
    (step s op).app.isLocked = s.app.isLocked := by
  cases op with
  | touchStart event => exact (handleTouchStart_tracing event s).1
  | touchMove event =>
    simp only [step, handleTouchMove, draw, generateSwipeFeedback, changeBackgroundGradient]
    split_ifs <;> rfl
  | touchEnd =>
    simp only [step, handleTouchEnd]
    split_ifs
    · cases hd : s.isDrawing
      · simp [stopDrawing, hd]
      · cases ht : s.currentTargetToTrace
        · simp [stopDrawing, hd, ht]
        · simp only [stopDrawing, hd, ht]
          simp only [Bool.not_true, Bool.false_eq_true, if_false]
          split_ifs
          rfl
    · rfl
    · rfl
  | keyDown event =>
    have h2 : isUnlockCombination event = false := h
    simp only [step]
    rw [handleKeyDown_isLocked, h2]
    simp
  | click b => exact clickListener_isLocked b s
  | resize w h' =>
    simp only [step]
    cases hc : s.currentTargetToTrace
    · simp [resizeCanvas, hc]
    · simp only [resizeCanvas, hc]; split_ifs <;> rfl
  | advanceTimeout =>
    simp only [step, advanceTimeout]
    split_ifs
    · rfl
    · rw [startNewTracingTarget_app]
  | initialMessageTimeout =>
    simp only [step, initialMessageTimeout, startParentInstructionTimer]
    split_ifs <;> rfl

theorem foldl_step_isLocked (ops : List Op) (s : State)
    (h : ∀ op ∈ ops, isUnlockKeyDown op = false) :
    (ops.foldl step s).app.isLocked = s.app.isLocked := by
  induction ops generalizing s with
  | nil => rfl
  | cons op rest ih =>
    rw [List.foldl_cons, ih (step s op) (fun o ho => h o (List.mem_cons_of_mem _ ho)),
      step_isLocked s op (h op (List.mem_cons_self _ _))]

/-- C25: `handleKeyDown` called while locked sets `isLocked` to false exactly when
`ctrlKey` and `shiftKey` are set and `key` is 'L', and called while unlocked it changes
nothing; no other operation (touch start, move and end, the click listener of every
button, resize, the two timeout callbacks, a keydown without the combination) changes
`isLocked`. So from a locked state, and after page load, `isLocked` stays true under every
sequence of operations without a Ctrl+Shift+L keydown: the taps of the corner sequence
leave the screen locked, as does `activateParentMode`, and the keydown of Ctrl+Shift+L
then unlocks it. -/
theorem lock_left_only_by_key_combination :
    (∀ (event : KeyDownInput) (s : State), s.app.isLocked = true →
      ((handleKeyDown event s).app.isLocked = false ↔
        event.ctrlKey = true ∧ event.shiftKey = true ∧ event.key = "L")) ∧
    (∀ (event : KeyDownInput) (s : State), s.app.isLocked = false →
      handleKeyDown event s = s) ∧
    (∀ (s : State) (op : Op), isUnlockKeyDown op = false →
      (step s op).app.isLocked = s.app.isLocked) ∧
    (∀ (s : State) (ops : List Op), s.app.isLocked = true →
      (∀ op ∈ ops, isUnlockKeyDown op = false) →
      (ops.foldl step s).app.isLocked = true) ∧
    (∀ (innerWidth innerHeight : ℚ) (ops : List Op),
      (∀ op ∈ ops, isUnlockKeyDown op = false) →
      (run innerWidth innerHeight ops).app.isLocked = true) ∧
    (∀ s : State, (activateParentMode s).app.isLocked = s.app.isLocked) ∧
    (run 1000 800 openParentMenu).app.isLocked = true ∧
    (run 1000 800 (openParentMenu ++ [Op.keyDown keyCtrlShiftL])).app.isLocked = false := by
  refine ⟨?_, ?_, step_isLocked, ?_, ?_, ?_, ?_, ?_⟩
  · intro event s hl
    rw [handleKeyDown_isLocked, hl]
    simp [isUnlockCombination, and_assoc]
  · intro event s hl
    simp [handleKeyDown, hl]
  · intro s ops hl h
    rw [foldl_step_isLocked ops s h, hl]
  · intro w h ops hk
    exact (foldl_step_isLocked ops _ hk).trans rfl
  · intro s
    rfl
  · rw [run_openParentMenu]; rfl
  · rw [run_append, run_openParentMenu]; rfl

/-- Witness of C25: after page load, the taps of the corner sequence, clicks on lesson
buttons, a tap, a swipe, a resize, the timeout callbacks and keys without the full
combination leave the screen locked. -/
theorem lock_left_only_by_key_combination_witness :
    (run 1000 800 busyWithoutUnlock).app.isLocked = true :=
  lock_left_only_by_key_combination.2.2.2.2.1 1000 800 busyWithoutUnlock (by decide)

/-! ## C23: the vertices of the two stars -/

theorem range_ten : List.range 10 = [0, 1, 2, 3, 4, 5, 6, 7, 8, 9] := by decide

theorem outlineStarLoop_five (outerRadius innerRadius : ℚ) :
    outlineStarLoop 5 outerRadius innerRadius (1 / 2 * 3) (1 / 5) =
      (List.range 10).map (fun k =>
        CtxCall.lineTo (starVertex outerRadius innerRadius k).1
          (starVertex outerRadius innerRadius k).2) := by
  rw [range_ten]
  norm_num [outlineStarLoop, starVertex, polarPoint]

theorem outlineShapePath_stars (size : ℚ) :
    outlineShapePath (some "★") size =
      [CtxCall.moveTo (Num.rat 0) (Num.rat (-(size / 2)))] ++
        outlineStarLoop 5 (size / 2) (size / 2 / 2.5) (1 / 2 * 3) (1 / 5) ++
        [CtxCall.closePath] ∧
    outlineShapePath (some "⭐") size =
      [CtxCall.moveTo (Num.rat 0) (Num.rat (-(size / 2)))] ++
        outlineStarLoop 5 (size / 2) (size / 2 * 0.4) (1 / 2 * 3) (1 / 5) ++
        [CtxCall.closePath] := by
  have h1 : ¬ ("★" = "●") := by decide
  have h2 : ¬ ("★" = "■") := by decide
  have h3 : ¬ ("★" = "▲") := by decide
  have k1 : ¬ ("⭐" = "●") := by decide
  have k2 : ¬ ("⭐" = "■") := by decide
  have k3 : ¬ ("⭐" = "▲") := by decide
  have k4 : ¬ ("⭐" = "★") := by decide
  have k5 : ¬ ("⭐" = "◆") := by decide
  have k6 : ¬ ("⭐" = "❤") := by decide
  constructor
  · simp only [outlineShapePath, Option.some.injEq, h1, h2, h3, if_false, if_true]
  · simp only [outlineShapePath, Option.some.injEq, k1, k2, k3, k4, k5, k6, if_false, if_true]

theorem drawOutlineCalls_shape (content : Option String) (width height : ℚ) :
    drawOutlineCalls "shape" content width height =
      [CtxCall.setLineWidth 5, CtxCall.setStrokeStyle "rgba(255, 255, 255, 0.3)",
       CtxCall.setLineCap "round", CtxCall.setLineJoin "round",
       CtxCall.save, CtxCall.translate (width / 2) (height / 2), CtxCall.beginPath] ++
      outlineShapePath content (min width height * 0.4) ++
      [CtxCall.stroke, CtxCall.restore] := by
  simp [drawOutlineCalls]

theorem starRadii (content : String) (width height : ℚ)
    (h : content = "★" ∨ content = "⭐") :
    min width height * 0.4 / 2 = starOuterRadius width height ∧
    (content = "★" → min width height * 0.4 / 2 / 2.5 =
      starInnerRadius content (starOuterRadius width height)) ∧
    (content = "⭐" → min width height * 0.4 / 2 * 0.4 =
      starInnerRadius content (starOuterRadius width height)) := by
  have k4 : ¬ ("⭐" = "★") := by decide
  refine ⟨by unfold starOuterRadius; ring, ?_, ?_⟩
  · rintro rfl
    simp only [starInnerRadius, starOuterRadius, if_true]
    ring
  · rintro rfl
    simp only [starInnerRadius, starOuterRadius, k4, if_false]
    ring

theorem lineToVertices_star (outerRadius innerRadius : ℚ) (pre post : List CtxCall)
    (hpre : lineToVertices pre = []) (hpost : lineToVertices post = []) :
    lineToVertices (pre ++ (List.range 10).map (fun k =>
        CtxCall.lineTo (starVertex outerRadius innerRadius k).1
          (starVertex outerRadius innerRadius k).2) ++ post) =
      (List.range 10).map (starVertex outerRadius innerRadius) := by
  unfold lineToVertices at *
  rw [List.filterMap_append, List.filterMap_append, hpre, hpost, range_ten]
  rfl

/-- The coordinates that a symbolic star vertex stands for, in real arithmetic. -/
theorem starVertex_value (outerRadius innerRadius : ℚ) (k : Nat) :
    Num.value (fun a => Real.cos (a * Real.pi)) (fun a => Real.sin (a * Real.pi))
        (starVertex outerRadius innerRadius k).1 =
      ((if k % 2 = 0 then outerRadius else innerRadius : ℚ) : ℝ) *
        Real.cos ((270 + 36 * (k : ℝ)) * Real.pi / 180) ∧
    Num.value (fun a => Real.cos (a * Real.pi)) (fun a => Real.sin (a * Real.pi))
        (starVertex outerRadius innerRadius k).2 =
      ((if k % 2 = 0 then outerRadius else innerRadius : ℚ) : ℝ) *
        Real.sin ((270 + 36 * (k : ℝ)) * Real.pi / 180) := by
  have e : (((270 + 36 * (k : ℚ)) / 180 : ℚ) : ℝ) * Real.pi =
      (270 + 36 * (k : ℝ)) * Real.pi / 180 := by
    push_cast
    ring
  constructor <;> simp only [starVertex, polarPoint, Num.value, e]

/-- The first vertex of a star is the point `(0, -R)` at which the path starts. -/
theorem starVertex_zero_value (outerRadius innerRadius : ℚ) :
    Num.value (fun a => Real.cos (a * Real.pi)) (fun a => Real.sin (a * Real.pi))
        (starVertex outerRadius innerRadius 0).1 = 0 ∧
    Num.value (fun a => Real.cos (a * Real.pi)) (fun a => Real.sin (a * Real.pi))
        (starVertex outerRadius innerRadius 0).2 = -(outerRadius : ℝ) := by
  obtain ⟨h1, h2⟩ := starVertex_value outerRadius innerRadius 0
  have e : (270 + 36 * ((0 : ℕ) : ℝ)) * Real.pi / 180 = Real.pi / 2 + Real.pi := by
    push_cast
    ring
  rw [h1, h2, e, Real.cos_add_pi, Real.sin_add_pi, Real.cos_pi_div_two, Real.sin_pi_div_two]
  simp

/-- C23: for the glyphs '★' and '⭐' and every canvas width and height, with
`R = 0.4 * min(width, height) / 2`, `drawOutline` translates to the centre of the canvas
and builds the path `moveTo(0, -R)`, ten `lineTo` calls, `closePath`; the vertex `k`
(from 0 to 9) is at the polar angle 270° + 36°·k, at the radius `R` for even `k` and at
the inner radius for odd `k`, the inner radius being `R / 2.5` for '★' and `0.4 * R` for
'⭐'. In real arithmetic vertex `k` is the point `(r cos θ, r sin θ)` with
`θ = (270 + 36 k) π / 180`, and vertex 0 is the starting point `(0, -R)`. -/
theorem star_outline_vertices (content : String) (width height : ℚ)
    (h : content = "★" ∨ content = "⭐") :
    drawOutlineCalls "shape" (some content) width height =
      [CtxCall.setLineWidth 5, CtxCall.setStrokeStyle "rgba(255, 255, 255, 0.3)",
       CtxCall.setLineCap "round", CtxCall.setLineJoin "round",
       CtxCall.save, CtxCall.translate (width / 2) (height / 2), CtxCall.beginPath,
       CtxCall.moveTo (Num.rat 0) (Num.rat (-starOuterRadius width height))] ++
      (List.range 10).map (fun k =>
        CtxCall.lineTo
          (starVertex (starOuterRadius width height)
            (starInnerRadius content (starOuterRadius width height)) k).1
          (starVertex (starOuterRadius width height)
            (starInnerRadius content (starOuterRadius width height)) k).2) ++
      [CtxCall.closePath, CtxCall.stroke, CtxCall.restore] ∧
    lineToVertices (drawOutlineCalls "shape" (some content) width height) =
      (List.range 10).map (starVertex (starOuterRadius width height)
        (starInnerRadius content (starOuterRadius width height))) ∧
    (lineToVertices (drawOutlineCalls "shape" (some content) width height)).length = 10 ∧
    (∀ k : Nat,
      Num.value (fun a => Real.cos (a * Real.pi)) (fun a => Real.sin (a * Real.pi))
          (starVertex (starOuterRadius width height)
            (starInnerRadius content (starOuterRadius width height)) k).1 =
        ((if k % 2 = 0 then starOuterRadius width height
          else starInnerRadius content (starOuterRadius width height) : ℚ) : ℝ) *
          Real.cos ((270 + 36 * (k : ℝ)) * Real.pi / 180) ∧
      Num.value (fun a => Real.cos (a * Real.pi)) (fun a => Real.sin (a * Real.pi))
          (starVertex (starOuterRadius width height)
            (starInnerRadius content (starOuterRadius width height)) k).2 =
        ((if k % 2 = 0 then starOuterRadius width height
          else starInnerRadius content (starOuterRadius width height) : ℚ) : ℝ) *
          Real.sin ((270 + 36 * (k : ℝ)) * Real.pi / 180)) ∧
    Num.value (fun a => Real.cos (a * Real.pi)) (fun a => Real.sin (a * Real.pi))
        (starVertex (starOuterRadius width height)
          (starInnerRadius content (starOuterRadius width height)) 0).1 = 0 ∧
    Num.value (fun a => Real.cos (a * Real.pi)) (fun a => Real.sin (a * Real.pi))
        (starVertex (starOuterRadius width height)
          (starInnerRadius content (starOuterRadius width height)) 0).2 =
      -(starOuterRadius width height : ℝ) := by
  obtain ⟨r1, r2, r3⟩ := starRadii content width height h
  have calls : drawOutlineCalls "shape" (some content) width height =
      [CtxCall.setLineWidth 5, CtxCall.setStrokeStyle "rgba(255, 255, 255, 0.3)",
       CtxCall.setLineCap "round", CtxCall.setLineJoin "round",
       CtxCall.save, CtxCall.translate (width / 2) (height / 2), CtxCall.beginPath,
       CtxCall.moveTo (Num.rat 0) (Num.rat (-starOuterRadius width height))] ++
      (List.range 10).map (fun k =>
        CtxCall.lineTo
          (starVertex (starOuterRadius width height)
            (starInnerRadius content (starOuterRadius width height)) k).1
          (starVertex (starOuterRadius width height)
            (starInnerRadius content (starOuterRadius width height)) k).2) ++
      [CtxCall.closePath, CtxCall.stroke, CtxCall.restore] := by
    rw [drawOutlineCalls_shape]
    rcases h with hc | hc
    · rw [hc, (outlineShapePath_stars _).1, ← hc, r2 hc, r1, outlineStarLoop_five]
      simp only [List.append_assoc, List.cons_append, List.nil_append]
    · rw [hc, (outlineShapePath_stars _).2, ← hc, r3 hc, r1, outlineStarLoop_five]
      simp only [List.append_assoc, List.cons_append, List.nil_append]
  have verts := lineToVertices_star (starOuterRadius width height)
    (starInnerRadius content (starOuterRadius width height))
    [CtxCall.setLineWidth 5, CtxCall.setStrokeStyle "rgba(255, 255, 255, 0.3)",
     CtxCall.setLineCap "round", CtxCall.setLineJoin "round",
     CtxCall.save, CtxCall.translate (width / 2) (height / 2), CtxCall.beginPath,
     CtxCall.moveTo (Num.rat 0) (Num.rat (-starOuterRadius width height))]
    [CtxCall.closePath, CtxCall.stroke, CtxCall.restore] rfl rfl
  rw [← calls] at verts
  refine ⟨calls, verts, ?_, fun k => starVertex_value _ _ k,
    (starVertex_zero_value _ _).1, (starVertex_zero_value _ _).2⟩
  rw [verts, List.length_map, List.length_range]

/-- Witness of C23: the ten vertices of '★' on a canvas of 1000 by 800, where `R` is 160
and the inner radius is 64; the angles are written as factors of π, from 3/2 (270°) in
steps of 1/5 (36°). -/
theorem star_outline_vertices_witness :
    lineToVertices (drawOutlineCalls "shape" (some "★") 1000 800) =
      [(Num.cosTimes 160 (3 / 2), Num.sinTimes 160 (3 / 2)),
       (Num.cosTimes 64 (17 / 10), Num.sinTimes 64 (17 / 10)),
       (Num.cosTimes 160 (19 / 10), Num.sinTimes 160 (19 / 10)),
       (Num.cosTimes 64 (21 / 10), Num.sinTimes 64 (21 / 10)),
       (Num.cosTimes 160 (23 / 10), Num.sinTimes 160 (23 / 10)),
       (Num.cosTimes 64 (5 / 2), Num.sinTimes 64 (5 / 2)),
       (Num.cosTimes 160 (27 / 10), Num.sinTimes 160 (27 / 10)),
       (Num.cosTimes 64 (29 / 10), Num.sinTimes 64 (29 / 10)),
       (Num.cosTimes 160 (31 / 10), Num.sinTimes 160 (31 / 10)),
       (Num.cosTimes 64 (33 / 10), Num.sinTimes 64 (33 / 10))] := by
  rw [(star_outline_vertices "★" 1000 800 (Or.inl rfl)).2.1, range_ten]
  norm_num [starVertex, polarPoint, starOuterRadius, starInnerRadius]

/-! ## C24: the two star variants -/

/-- C24: the two star branches of `drawOutline` build the same path. The inner radius
of '⭐', `outerRadius * 0.4`, is the inner radius of '★', `outerRadius / 2.5`, for every
outer radius, so for every size the path of '⭐' is the path of '★', and for every
canvas `drawOutline` issues the same calls for the two glyphs. On a canvas of 1000 by
800, where `min(width, height)` is positive, the two glyphs are different strings and
their vertices are the same, with the inner radius 64. -/
theorem star_variants_same_path :
    (∀ outerRadius : ℚ, outerRadius * 0.4 = outerRadius / 2.5) ∧
    (∀ size : ℚ, outlineShapePath (some "⭐") size = outlineShapePath (some "★") size) ∧
    (∀ width height : ℚ,
      drawOutlineCalls "shape" (some "⭐") width height =
        drawOutlineCalls "shape" (some "★") width height) ∧
    "⭐" ≠ "★" ∧
    (0 : ℚ) < min 1000 800 ∧
    lineToVertices (drawOutlineCalls "shape" (some "⭐") 1000 800) =
      lineToVertices (drawOutlineCalls "shape" (some "★") 1000 800) ∧
    (lineToVertices (drawOutlineCalls "shape" (some "⭐") 1000 800))[1]? =
      some (Num.cosTimes 64 (17 / 10), Num.sinTimes 64 (17 / 10)) ∧
    (lineToVertices (drawOutlineCalls "shape" (some "★") 1000 800))[1]? =
      some (Num.cosTimes 64 (17 / 10), Num.sinTimes 64 (17 / 10)) := by
  have radii : ∀ outerRadius : ℚ, outerRadius * 0.4 = outerRadius / 2.5 := by
    intro outerRadius
    ring
  have path : ∀ size : ℚ,
      outlineShapePath (some "⭐") size = outlineShapePath (some "★") size := by
    intro size
    rw [(outlineShapePath_stars size).1, (outlineShapePath_stars size).2, radii]
  have calls : ∀ width height : ℚ,
      drawOutlineCalls "shape" (some "⭐") width height =
        drawOutlineCalls "shape" (some "★") width height := by
    intro width height
    rw [drawOutlineCalls_shape, drawOutlineCalls_shape, path]
  have second : (lineToVertices (drawOutlineCalls "shape" (some "★") 1000 800))[1]? =
      some (Num.cosTimes 64 (17 / 10), Num.sinTimes 64 (17 / 10)) := by
    rw [drawOutlineCalls_shape, (outlineShapePath_stars _).1, outlineStarLoop_five,
      range_ten]
    norm_num [lineToVertices, starVertex, polarPoint]
    rfl
  refine ⟨radii, path, calls, by decide, by norm_num, by rw [calls], ?_, second⟩
  rw [calls]
  exact second

end KeyMousePlay
